import Mathlib

/-!
Verification of the KlutchMoments GPU service tracking and pipeline code.

Shallow embedding of `src/gpu_service/src/tracking/bytetrack.py` and the
pure control logic of `src/gpu_service/src/video_processing/pipeline.py`.
Python floats are modelled as exact rationals (`ℚ`); numpy arrays over
`Fin n → ℚ`.
-/

namespace Klutch

/-- `schemas.BoundingBox`: center-format box with confidence (floats as `ℚ`).
The pydantic schema constrains every field to `[0,1]`. -/
structure BoundingBox where
  x : ℚ
  y : ℚ
  width : ℚ
  height : ℚ
  confidence : ℚ
deriving DecidableEq

/-- `schemas.TrackingData`: one reported track for one frame. -/
structure TrackingData where
  track_id : ℕ
  bounding_box : BoundingBox
  timestamp : ℚ
deriving DecidableEq

/-! ### Dense vectors and matrices (numpy arrays) -/

/-- Matrix product `A @ B` (numpy `@`). -/
def matMul {m n k : ℕ} (A : Fin m → Fin n → ℚ) (B : Fin n → Fin k → ℚ) :
    Fin m → Fin k → ℚ :=
  fun i j => ∑ l, A i l * B l j

/-- Matrix–vector product `A @ v`. -/
def matVec {m n : ℕ} (A : Fin m → Fin n → ℚ) (v : Fin n → ℚ) : Fin m → ℚ :=
  fun i => ∑ l, A i l * v l

/-- Transpose `A.T`. -/
def matT {m n : ℕ} (A : Fin m → Fin n → ℚ) : Fin n → Fin m → ℚ :=
  fun i j => A j i

/-- Entrywise matrix sum. -/
def matAdd {m n : ℕ} (A B : Fin m → Fin n → ℚ) : Fin m → Fin n → ℚ :=
  fun i j => A i j + B i j

/-- Entrywise matrix difference. -/
def matSub {m n : ℕ} (A B : Fin m → Fin n → ℚ) : Fin m → Fin n → ℚ :=
  fun i j => A i j - B i j

/-- Scalar multiple of a matrix. -/
def matSmul {m n : ℕ} (c : ℚ) (A : Fin m → Fin n → ℚ) : Fin m → Fin n → ℚ :=
  fun i j => c * A i j

/-- Entrywise vector sum. -/
def vecAdd {n : ℕ} (v w : Fin n → ℚ) : Fin n → ℚ := fun i => v i + w i

/-- Entrywise vector difference. -/
def vecSub {n : ℕ} (v w : Fin n → ℚ) : Fin n → ℚ := fun i => v i - w i

/-- `np.eye(n)`. -/
def eyeN (n : ℕ) : Fin n → Fin n → ℚ := fun i j => if i = j then 1 else 0

/-- Minor of a `4×4` matrix: delete row `r` and column `c`. -/
def minor4 (A : Fin 4 → Fin 4 → ℚ) (r c : Fin 4) : Fin 3 → Fin 3 → ℚ :=
  fun i j => A (r.succAbove i) (c.succAbove j)

/-- Minor of a `3×3` matrix: delete row `r` and column `c`. -/
def minor3 (A : Fin 3 → Fin 3 → ℚ) (r c : Fin 3) : Fin 2 → Fin 2 → ℚ :=
  fun i j => A (r.succAbove i) (c.succAbove j)

/-- Determinant of a `2×2` matrix. -/
def det2 (A : Fin 2 → Fin 2 → ℚ) : ℚ := A 0 0 * A 1 1 - A 0 1 * A 1 0

/-- Determinant of a `3×3` matrix, cofactor expansion along the first row. -/
def det3 (A : Fin 3 → Fin 3 → ℚ) : ℚ :=
  ∑ j : Fin 3, (-1 : ℚ) ^ (j : ℕ) * A 0 j * det2 (minor3 A 0 j)

/-- Determinant of a `4×4` matrix, cofactor expansion along the first row. -/
def det4 (A : Fin 4 → Fin 4 → ℚ) : ℚ :=
  ∑ j : Fin 4, (-1 : ℚ) ^ (j : ℕ) * A 0 j * det3 (minor4 A 0 j)

/-- Model of `np.linalg.inv` on the `4×4` innovation covariance: the
adjugate formula `A⁻¹ = adj(A) / det(A)`, which agrees with numpy's inverse
on every invertible matrix. -/
def inv4 (A : Fin 4 → Fin 4 → ℚ) : Fin 4 → Fin 4 → ℚ :=
  fun i j => (-1 : ℚ) ^ ((i : ℕ) + (j : ℕ)) * det3 (minor4 A j i) / det4 A

/-- `np.clip(v, lo, hi)`. -/
def clip (v lo hi : ℚ) : ℚ := min (max v lo) hi

/-- Materialise a vector as a list (numpy arrays are stored, not recomputed,
so every intermediate array of the source is stored in this form). -/
def tab1 {n : ℕ} (f : Fin n → ℚ) : List ℚ := List.ofFn f

/-- Materialise a matrix as a list of rows. -/
def tab2 {m n : ℕ} (f : Fin m → Fin n → ℚ) : List (List ℚ) :=
  List.ofFn fun i => List.ofFn (f i)

/-- Read one entry of a materialised vector. -/
def ent1 {n : ℕ} (l : List ℚ) (i : Fin n) : ℚ := l.getD i.val 0

/-- Read one entry of a materialised matrix. -/
def ent2 {m n : ℕ} (l : List (List ℚ)) (i : Fin m) (j : Fin n) : ℚ :=
  (l.getD i.val []).getD j.val 0

/-! ### `KalmanBoxTracker` (bytetrack.py lines 15–131)

The numpy matrices built in `__init__` never change after construction and
are the same for every tracker, so they are top-level constants here. -/

/-- Transition matrix: `np.eye(8)` with `transition[:4, 4:] = np.eye(4)`
scaled by `dt` (constant-velocity model, `position += velocity * dt`). -/
def transitionM (dt : ℚ) : Fin 8 → Fin 8 → ℚ :=
  fun i j => if i = j then 1 else if (j : ℕ) = (i : ℕ) + 4 then dt else 0

/-- Measurement matrix: zeros with `measurement[:4, :4] = np.eye(4)`
(observe position and size). -/
def measurementM : Fin 4 → Fin 8 → ℚ :=
  fun i j => if (j : ℕ) = (i : ℕ) then 1 else 0

/-- Process noise: `np.eye(8)` with both diagonal blocks scaled by `0.01`. -/
def processNoiseM : Fin 8 → Fin 8 → ℚ :=
  fun i j => if i = j then 1 / 100 else 0

/-- Measurement noise: `np.eye(4) * 0.1`. -/
def measurementNoiseM : Fin 4 → Fin 4 → ℚ :=
  fun i j => if i = j then 1 / 10 else 0

/-- Initial state covariance: `np.eye(8)` with the velocity block scaled
by `1000`. -/
def initCovariance : Fin 8 → Fin 8 → ℚ :=
  fun i j => if i = j then (if (i : ℕ) < 4 then 1 else 1000) else 0

/-- Mutable fields of `KalmanBoxTracker`.  `id` is assigned from the
class-level counter `KalmanBoxTracker.count` by the caller.  `state` is the
8-entry state vector, `covariance` the 8×8 covariance matrix, both stored
as materialised arrays. -/
structure KalmanBoxTracker where
  id : ℕ
  state : List ℚ
  covariance : List (List ℚ)
  time_since_update : ℕ
  hit_streak : ℕ
  hits : ℕ
  age : ℕ
  last_timestamp : ℚ
  confidence : ℚ
deriving DecidableEq

/-- `KalmanBoxTracker.__init__(bbox, timestamp)` with the identity the
class counter currently holds. -/
def KalmanBoxTracker.init (bbox : BoundingBox) (timestamp : ℚ) (newId : ℕ) :
    KalmanBoxTracker where
  id := newId
  state := [bbox.x, bbox.y, bbox.width, bbox.height, 0, 0, 0, 0]
  covariance := tab2 initCovariance
  time_since_update := 0
  hit_streak := 0
  hits := 1
  age := 1
  last_timestamp := timestamp
  confidence := bbox.confidence

/-- `KalmanBoxTracker.update(bbox, timestamp)`: internal prediction step
followed by the linear Kalman correction, then the bookkeeping updates.
Each intermediate numpy array is materialised (`tab1`/`tab2`), as numpy
stores it. -/
def KalmanBoxTracker.update (t : KalmanBoxTracker) (bbox : BoundingBox)
    (timestamp : ℚ) : KalmanBoxTracker :=
  let dt := timestamp - t.last_timestamp
  let transition := transitionM dt
  let stateF : Fin 8 → ℚ := ent1 t.state
  let covF : Fin 8 → Fin 8 → ℚ := ent2 t.covariance
  let statePred := tab1 (matVec transition stateF)
  let statePredF : Fin 8 → ℚ := ent1 statePred
  let covPred :=
    tab2 (matAdd (matMul (matMul transition covF) (matT transition))
      (matSmul dt processNoiseM))
  let covPredF : Fin 8 → Fin 8 → ℚ := ent2 covPred
  let measurementVec : Fin 4 → ℚ := fun i =>
    if i = 0 then bbox.x else if i = 1 then bbox.y
    else if i = 2 then bbox.width else bbox.height
  let innovation := tab1 (vecSub measurementVec (matVec measurementM statePredF))
  let innovationF : Fin 4 → ℚ := ent1 innovation
  let innovationCov :=
    tab2 (matAdd (matMul (matMul measurementM covPredF) (matT measurementM))
      measurementNoiseM)
  let invInnovationCov := tab2 (inv4 (ent2 innovationCov))
  let invInnovationCovF : Fin 4 → Fin 4 → ℚ := ent2 invInnovationCov
  let kalmanGain :=
    tab2 (matMul (matMul covPredF (matT measurementM)) invInnovationCovF)
  let kalmanGainF : Fin 8 → Fin 4 → ℚ := ent2 kalmanGain
  { t with
    state := tab1 (vecAdd statePredF (matVec kalmanGainF innovationF))
    covariance :=
      tab2 (matMul (matSub (eyeN 8) (matMul kalmanGainF measurementM)) covPredF)
    last_timestamp := timestamp
    time_since_update := 0
    hit_streak := t.hit_streak + 1
    hits := t.hits + 1
    confidence := max (t.confidence * (9 / 10)) bbox.confidence }

/-- `KalmanBoxTracker.predict(timestamp)`: returns the clamped predicted
box and the tracker as it stands after the call (only `age` and
`time_since_update` are written; the stored state, covariance, stored
confidence and `last_timestamp` are left as they were). -/
def KalmanBoxTracker.predict (t : KalmanBoxTracker) (timestamp : ℚ) :
    BoundingBox × KalmanBoxTracker :=
  let dt := timestamp - t.last_timestamp
  let predicted := matVec (transitionM dt) (ent1 t.state)
  ({ x := clip (predicted 0) 0 1
     y := clip (predicted 1) 0 1
     width := clip (predicted 2) (1 / 100) 1
     height := clip (predicted 3) (1 / 100) 1
     confidence := t.confidence * (19 / 20) },
   { t with age := t.age + 1, time_since_update := t.time_since_update + 1 })

/-- `KalmanBoxTracker.get_state()`. -/
def KalmanBoxTracker.get_state (t : KalmanBoxTracker) : BoundingBox where
  x := clip (ent1 t.state (0 : Fin 8)) 0 1
  y := clip (ent1 t.state (1 : Fin 8)) 0 1
  width := clip (ent1 t.state (2 : Fin 8)) (1 / 100) 1
  height := clip (ent1 t.state (3 : Fin 8)) (1 / 100) 1
  confidence := t.confidence

/-! ### `ByteTracker` (bytetrack.py lines 134–357) -/

/-- `ByteTracker._compute_iou(box1, box2)`. -/
def computeIoU (box1 box2 : BoundingBox) : ℚ :=
  let x1min := box1.x - box1.width / 2
  let y1min := box1.y - box1.height / 2
  let x1max := box1.x + box1.width / 2
  let y1max := box1.y + box1.height / 2
  let x2min := box2.x - box2.width / 2
  let y2min := box2.y - box2.height / 2
  let x2max := box2.x + box2.width / 2
  let y2max := box2.y + box2.height / 2
  let interXmin := max x1min x2min
  let interYmin := max y1min y2min
  let interXmax := min x1max x2max
  let interYmax := min y1max y2max
  if interXmax ≤ interXmin ∨ interYmax ≤ interYmin then 0
  else
    let interArea := (interXmax - interXmin) * (interYmax - interYmin)
    let area1 := box1.width * box1.height
    let area2 := box2.width * box2.height
    let unionArea := area1 + area2 - interArea
    if unionArea ≤ 0 then 0 else interArea / unionArea

/-- Placeholder value for out-of-range list reads; the source never indexes
out of range, so this value never reaches any result. -/
def dummyBox : BoundingBox := ⟨0, 0, 0, 0, 0⟩

/-- Placeholder tracker for out-of-range list reads. -/
def dummyTracker : KalmanBoxTracker := KalmanBoxTracker.init dummyBox 0 0

/-- The cells of the IoU matrix at or above the threshold, in the row-major
`(detection, tracker)` order `np.where` yields, each with its score. -/
def candidatePairs (dets : List BoundingBox) (trks : List KalmanBoxTracker)
    (thresh : ℚ) : List (ℚ × ℕ × ℕ) :=
  dets.enum.flatMap fun d =>
    trks.enum.filterMap fun t =>
      let s := computeIoU d.2 t.2.get_state
      if thresh ≤ s then some (s, d.1, t.1) else none

/-- The greedy loop of `_associate`: walk the candidate cells in sorted
order, accepting a pair only when neither its detection index nor its
tracker index has been used before. -/
def greedyMatch : List (ℚ × ℕ × ℕ) → List ℕ → List ℕ → List (ℕ × ℕ)
  | [], _, _ => []
  | (_, d, t) :: rest, usedD, usedT =>
    if d ∈ usedD ∨ t ∈ usedT then greedyMatch rest usedD usedT
    else (d, t) :: greedyMatch rest (d :: usedD) (t :: usedT)

/-- `ByteTracker._associate(detections, trackers, iou_threshold)`: matched
`(detection, tracker)` index pairs, unmatched detection indices, unmatched
tracker indices.  `np.argsort(-scores)` is modelled as a sort by descending
IoU score. -/
def associate (dets : List BoundingBox) (trks : List KalmanBoxTracker)
    (iouThreshold : ℚ) : List (ℕ × ℕ) × List ℕ × List ℕ :=
  if trks.length = 0 then ([], List.range dets.length, [])
  else
    let sortedCands :=
      (candidatePairs dets trks iouThreshold).mergeSort fun a b => decide (b.1 ≤ a.1)
    let accepted := greedyMatch sortedCands [] []
    let matchedDs := accepted.map Prod.fst
    let matchedTs := accepted.map Prod.snd
    (accepted,
     (List.range dets.length).filter fun d => !(matchedDs.contains d),
     (List.range trks.length).filter fun t => !(matchedTs.contains t))

/-- `self.tracked_stracks[m[1]].update(dets[m[0]], timestamp)` applied for
each matched pair in order. -/
def applyMatches (trks : List KalmanBoxTracker) (ms : List (ℕ × ℕ))
    (dets : List BoundingBox) (ts : ℚ) : List KalmanBoxTracker :=
  ms.foldl
    (fun acc m =>
      acc.set m.2 ((acc.getD m.2 dummyTracker).update (dets.getD m.1 dummyBox) ts))
    trks

/-- The new-track loop of `update`: each unmatched detection meeting
`track_thresh` becomes a fresh `KalmanBoxTracker`, consuming one identity
from the class counter per construction. -/
def spawnTracks (thresh : ℚ) (ts : ℚ) (seeds : List BoundingBox)
    (p : List KalmanBoxTracker × ℕ) : List KalmanBoxTracker × ℕ :=
  seeds.foldl
    (fun p d =>
      if thresh ≤ d.confidence then
        (p.1 ++ [KalmanBoxTracker.init d ts p.2], p.2 + 1)
      else p)
    p

/-- `ByteTracker` state.  `count` models the class-level
`KalmanBoxTracker.count` identity counter used by this tracking session. -/
structure ByteTracker where
  track_thresh : ℚ
  track_buffer : ℕ
  match_thresh : ℚ
  frame_rate : ℕ
  tracked_stracks : List KalmanBoxTracker
  lost_stracks : List KalmanBoxTracker
  removed_stracks : List KalmanBoxTracker
  frame_id : ℕ
  total_tracks : ℕ
  active_tracks : ℕ
  count : ℕ

/-- `ByteTracker.__init__` with explicit arguments. -/
def ByteTracker.initWith (tt : ℚ) (tb : ℕ) (mt : ℚ) (fr : ℕ) : ByteTracker where
  track_thresh := tt
  track_buffer := tb
  match_thresh := mt
  frame_rate := fr
  tracked_stracks := []
  lost_stracks := []
  removed_stracks := []
  frame_id := 0
  total_tracks := 0
  active_tracks := 0
  count := 0

/-- `ByteTracker()` with the default arguments
`track_thresh=0.6, track_buffer=30, match_thresh=0.8, frame_rate=30`. -/
def ByteTracker.initDefault : ByteTracker :=
  ByteTracker.initWith (3 / 5) 30 (4 / 5) 30

/-- `ByteTracker.update(detections, timestamp)` (lines 161–251). -/
def ByteTracker.update (bt : ByteTracker) (detections : List BoundingBox)
    (timestamp : ℚ) : ByteTracker × List TrackingData :=
  let high := detections.filter fun d => decide (bt.track_thresh ≤ d.confidence)
  let low := detections.filter fun d => decide (d.confidence < bt.track_thresh)
  let predicted := bt.tracked_stracks.map fun t => (t.predict timestamp).2
  let r1 := associate high predicted bt.match_thresh
  let matchesR1 := r1.1
  let unmatchedDets := r1.2.1
  let unmatchedTrks := r1.2.2
  -- round two associates the low-confidence detections with the tracks
  -- round one left unmatched; those tracks are untouched by the round-one
  -- updates, so the association is computed before applying any update
  let matchesLow :=
    if 0 < low.length ∧ 0 < unmatchedTrks.length then
      (associate low (unmatchedTrks.map fun i => predicted.getD i dummyTracker)
        (1 / 2)).1
    else []
  let afterR1 := applyMatches predicted matchesR1 high timestamp
  let afterR2 :=
    applyMatches afterR1 (matchesLow.map fun m => (m.1, unmatchedTrks.getD m.2 0))
      low timestamp
  let seeds := unmatchedDets.map fun i => high.getD i dummyBox
  let created := spawnTracks bt.track_thresh timestamp seeds ([], bt.count)
  let withNew := afterR2 ++ created.1
  -- the source pops expired tracks while walking the indices in reverse,
  -- which keeps the survivors in order and collects the evicted tracks in
  -- reverse order
  let survivors := withNew.filter fun t => decide (t.time_since_update ≤ bt.track_buffer)
  let evicted :=
    (withNew.filter fun t => decide (bt.track_buffer < t.time_since_update)).reverse
  let lostAfter :=
    (bt.lost_stracks ++ evicted).filter fun t =>
      decide (t.time_since_update ≤ bt.track_buffer)
  let output :=
    (survivors.filter fun t => decide (3 ≤ t.hit_streak)).map fun t =>
      ({ track_id := t.id, bounding_box := t.get_state, timestamp := timestamp } :
        TrackingData)
  ({ bt with
      tracked_stracks := survivors
      lost_stracks := lostAfter
      frame_id := bt.frame_id + 1
      total_tracks := bt.total_tracks + created.1.length
      active_tracks := output.length
      count := created.2 },
   output)

/-- Result record of `ByteTracker.get_performance_stats()`. -/
structure PerformanceStats where
  total_tracks : ℕ
  active_tracks : ℕ
  lost_tracks : ℕ
  frame_id : ℕ
deriving DecidableEq

/-- `ByteTracker.get_performance_stats()`. -/
def ByteTracker.get_performance_stats (bt : ByteTracker) : PerformanceStats where
  total_tracks := bt.total_tracks
  active_tracks := bt.active_tracks
  lost_tracks := bt.lost_stracks.length
  frame_id := bt.frame_id

/-- `ByteTracker.reset()`: clears the track lists and the frame counter and
resets the class-level identity counter. -/
def ByteTracker.reset (bt : ByteTracker) : ByteTracker :=
  { bt with
    tracked_stracks := []
    lost_stracks := []
    removed_stracks := []
    frame_id := 0
    count := 0 }

/-! ### `VideoProcessor._load_video` path validation (pipeline.py 168–209)

Paths are sequences of characters; `pathlib.Path(p).resolve()` is modelled
(ignoring symlinks) as: make the path absolute against the working
directory, then normalise away empty, `.` and `..` segments. -/

/-- Split a character sequence at every `/`. -/
def splitOnSlash : List Char → List (List Char)
  | [] => [[]]
  | c :: rest =>
    if c = '/' then [] :: splitOnSlash rest
    else
      match splitOnSlash rest with
      | [] => [[c]]
      | seg :: segs => (c :: seg) :: segs

/-- Segment normalisation of `Path.resolve()`: drop empty and `.` segments,
let `..` remove the preceding segment. -/
def normSegs (segs : List (List Char)) : List (List Char) :=
  segs.foldl
    (fun acc s =>
      if s = [] ∨ s = ['.'] then acc
      else if s = ['.', '.'] then acc.dropLast
      else acc ++ [s])
    []

/-- Join segments with `/` separators. -/
def joinSlash : List (List Char) → List Char
  | [] => []
  | [s] => s
  | s :: rest => s ++ '/' :: joinSlash rest

/-- `str(Path(path).resolve())` as a character sequence, with `cwd` the
process working directory used for relative paths. -/
def resolvePath (cwd path : String) : List Char :=
  let full :=
    if path.data.head? = some '/' then path.data else cwd.data ++ '/' :: path.data
  '/' :: joinSlash (normSegs (splitOnSlash full))

/-- Is `p` an infix (contiguous subsequence) of `s`?  Models Python's
substring containment `p in s`. -/
def infixOf (p : List Char) : List Char → Bool
  | [] => p.isPrefixOf []
  | c :: rest => p.isPrefixOf (c :: rest) || infixOf p rest

/-- The error cases `_load_video` can raise before returning a video. -/
inductive LoadError
  | invalidPath
  | notAllowed
  | notFound
  | openFailed
  | tooLong
deriving DecidableEq

/-- The path validation performed by `_load_video` before any file access:
`ValueError` when `'..' in str(resolved_path)` or the resolved path is not
absolute, then `ValueError` when no allow-list directory is a string prefix
of the resolved path. -/
def validatePath (allowedDirs : List String) (cwd path : String) :
    Option LoadError :=
  let resolved := resolvePath cwd path
  if infixOf ['.', '.'] resolved || !(['/'].isPrefixOf resolved) then
    some .invalidPath
  else if !(allowedDirs.any fun d => d.data.isPrefixOf resolved) then
    some .notAllowed
  else none

/-- File accesses `_load_video` performs after validation, in order. -/
inductive FileAccess
  | statCheck (p : String)
  | openFile (p : String)
deriving DecidableEq

/-- `_load_video(video_path)` control flow: validation first, then
`os.path.exists`, then `cv2.VideoCapture` + `isOpened`, then the duration
bound.  Returns the file accesses performed and the error raised, if any.
The file system is abstracted by `fsExists`, `openOk` and `durOf`. -/
def loadVideoRun (allowedDirs : List String) (cwd : String)
    (fsExists openOk : String → Bool) (durOf : String → ℚ) (maxDur : ℚ)
    (path : String) : List FileAccess × Option LoadError :=
  match validatePath allowedDirs cwd path with
  | some e => ([], some e)
  | none =>
    if !(fsExists path) then ([.statCheck path], some .notFound)
    else if !(openOk path) then ([.statCheck path, .openFile path], some .openFailed)
    else if maxDur < durOf path then
      ([.statCheck path, .openFile path], some .tooLong)
    else ([.statCheck path, .openFile path], none)

/-- Is the path `p` under the directory `d` (equal to it, or inside its
subtree)?  This is the meaning of "resolves under" in the specification,
used to compare the claimed behaviour with `validatePath`. -/
def underDir (d p : List Char) : Prop := d = p ∨ (d ++ ['/']).isPrefixOf p = true

instance (d p : List Char) : Decidable (underDir d p) := by
  unfold underDir
  infer_instance

/-- The specification's rejection predicate, written from its words: the
canonicalized path contains a parent-directory traversal segment, or it
does not resolve under any allow-list directory. -/
def specRejectsPath (allowedDirs : List String) (cwd path : String) : Prop :=
  ['.', '.'] ∈ splitOnSlash (resolvePath cwd path) ∨
    ¬ ∃ d ∈ allowedDirs, underDir d.data (resolvePath cwd path)

/-! ### `VideoProcessor.process_video` job progress (pipeline.py 53–166,
246–249) -/

/-- `schemas.ProcessingStage`. -/
inductive ProcessingStage
  | queued
  | detecting
  | tracking
  | rendering
  | encoding
  | completed
  | failed
deriving DecidableEq

/-- The mutable job-status fields `process_video` writes
(`schemas.ProcessingStatus`). -/
structure ProcessingStatus where
  job_id : String
  stage : ProcessingStage
  progress : ℚ
  message : String
  error : Option String

/-- The `k`-th progress value `process_video` writes to a job's status:
`0.0` at job creation, `0.1` entering detection, then one write of
`0.1 + 0.7 * frame_idx / processing_frames` per processed frame
(`frame_idx = k - 2`), `0.9` entering encoding, `1.0` on completion. -/
def progressValue (processingFrames : ℕ) (k : ℕ) : ℚ :=
  if k = 0 then 0
  else if k = 1 then 1 / 10
  else if k < processingFrames + 2 then
    1 / 10 + 7 / 10 * (((k - 2 : ℕ) : ℚ) / (processingFrames : ℚ))
  else if k = processingFrames + 2 then 9 / 10
  else 1

/-- The progress values `process_video` writes over a full run, in order.
A failed or truncated run writes a prefix of this sequence. -/
def progressWrites (processingFrames : ℕ) : List ℚ :=
  (List.range (processingFrames + 4)).map (progressValue processingFrames)

/-- The `except` handler of `process_video`: the job moves to FAILED with
the error recorded; `progress` is not written. -/
def failJob (s : ProcessingStatus) (e : String) : ProcessingStatus :=
  { s with
    stage := .failed
    error := some e
    message := "Processing failed: " ++ e }

/-! ### Derived views used by the theorems -/

/-- The two per-frame match lists one `ByteTracker.update` call applies,
computed exactly as `update` computes them: the first-round pairs index into
the high-confidence detections and `tracked_stracks`; the second-round pairs
index into the low-confidence detections, with the tracker index already
mapped back through `unmatched_trks` into `tracked_stracks`. -/
def ByteTracker.frameMatches (bt : ByteTracker) (detections : List BoundingBox)
    (timestamp : ℚ) : List (ℕ × ℕ) × List (ℕ × ℕ) :=
  let high := detections.filter fun d => decide (bt.track_thresh ≤ d.confidence)
  let low := detections.filter fun d => decide (d.confidence < bt.track_thresh)
  let predicted := bt.tracked_stracks.map fun t => (t.predict timestamp).2
  let r1 := associate high predicted bt.match_thresh
  let unmatchedTrks := r1.2.2
  let matchesLow :=
    if 0 < low.length ∧ 0 < unmatchedTrks.length then
      (associate low (unmatchedTrks.map fun i => predicted.getD i dummyTracker)
        (1 / 2)).1
    else []
  (r1.1, matchesLow.map fun m => (m.1, unmatchedTrks.getD m.2 0))

/-- `N` consecutive `update` calls with no detections at the timestamps
`ts 1, …, ts N`: frames on which every track goes unmatched. -/
def iterEmptyFrames (bt : ByteTracker) (ts : ℕ → ℚ) : ℕ → ByteTracker
  | 0 => bt
  | n + 1 => ((iterEmptyFrames bt ts n).update [] (ts (n + 1))).1

/-- A track after `N` consecutive matchless frames: `predict` has run `N`
times and `update` never, so `age` and `time_since_update` each grew by `N`
and every other field is unchanged. -/
def missedFrames (t : KalmanBoxTracker) (N : ℕ) : KalmanBoxTracker :=
  { t with age := t.age + N, time_since_update := t.time_since_update + N }

/-- The tracker after `k` consecutive `predict` calls (at timestamps
`ts 1, …, ts k`) with no intervening `update`. -/
def predictN (t : KalmanBoxTracker) (ts : ℕ → ℚ) : ℕ → KalmanBoxTracker
  | 0 => t
  | k + 1 => ((predictN t ts k).predict (ts (k + 1))).2

/-- The bounding box returned by the `(j+1)`-th consecutive `predict` call. -/
def nthPredictBox (t : KalmanBoxTracker) (ts : ℕ → ℚ) (j : ℕ) : BoundingBox :=
  ((predictN t ts j).predict (ts (j + 1))).1

/-! ### Concrete three-frame scenario

One detection at the same place on frames 1 and 2, then a frame with no
detections: the single track is matched twice and then misses frame 3. -/

/-- The repeated detection of the concrete scenario. -/
def exBox : BoundingBox := ⟨1 / 2, 1 / 2, 1 / 5, 1 / 5, 9 / 10⟩

/-- A detection displaced in `x` from `exBox`: updating with it gives the
track a nonzero estimated velocity. -/
def exMoveBox : BoundingBox := ⟨3 / 4, 1 / 2, 1 / 5, 1 / 5, 9 / 10⟩

/-- Tracker state after frame 1 (`update [exBox]` on a fresh tracker). -/
def exRun1 : ByteTracker := (ByteTracker.initDefault.update [exBox] 1).1

/-- Tracker state after frame 2 (`update [exBox]` again). -/
def exRun2 : ByteTracker := (exRun1.update [exBox] 2).1

/-- Tracker state after frame 3, a frame with no detections at all, on
which the track therefore receives no matching detection. -/
def exRun3 : ByteTracker := (exRun2.update [] 3).1

/-! ### Bookkeeping lemmas -/

lemma predict_snd (t : KalmanBoxTracker) (ts : ℚ) :
    (t.predict ts).2 =
      { t with age := t.age + 1, time_since_update := t.time_since_update + 1 } := rfl

lemma predict_hit_streak (t : KalmanBoxTracker) (ts : ℚ) :
    (t.predict ts).2.hit_streak = t.hit_streak := rfl

lemma predict_id (t : KalmanBoxTracker) (ts : ℚ) : (t.predict ts).2.id = t.id := rfl

lemma predict_tsu (t : KalmanBoxTracker) (ts : ℚ) :
    (t.predict ts).2.time_since_update = t.time_since_update + 1 := rfl

lemma predict_box_confidence (t : KalmanBoxTracker) (ts : ℚ) :
    (t.predict ts).1.confidence = t.confidence * (19 / 20) := rfl

lemma update_hit_streak (t : KalmanBoxTracker) (b : BoundingBox) (ts : ℚ) :
    (t.update b ts).hit_streak = t.hit_streak + 1 := rfl

lemma update_tsu (t : KalmanBoxTracker) (b : BoundingBox) (ts : ℚ) :
    (t.update b ts).time_since_update = 0 := rfl

lemma update_track_id (t : KalmanBoxTracker) (b : BoundingBox) (ts : ℚ) :
    (t.update b ts).id = t.id := rfl

lemma bt_update_buffer (bt : ByteTracker) (dets : List BoundingBox) (ts : ℚ) :
    (bt.update dets ts).1.track_buffer = bt.track_buffer := rfl

lemma bt_update_thresh (bt : ByteTracker) (dets : List BoundingBox) (ts : ℚ) :
    (bt.update dets ts).1.track_thresh = bt.track_thresh := rfl

/-- Tracks evicted in one call carry `time_since_update > track_buffer`, so
the filter that prunes old lost tracks removes every one of them in the same
call: the lost list after `update` is just the old lost list pruned. -/
lemma bt_update_lost (bt : ByteTracker) (dets : List BoundingBox) (ts : ℚ) :
    (bt.update dets ts).1.lost_stracks =
      bt.lost_stracks.filter fun t =>
        decide (t.time_since_update ≤ bt.track_buffer) := by
  simp only [ByteTracker.update, List.filter_append, List.filter_reverse,
    List.filter_filter]
  have h : ∀ w : List KalmanBoxTracker,
      List.filter
        (fun a => decide (a.time_since_update ≤ bt.track_buffer) &&
          decide (bt.track_buffer < a.time_since_update)) w = [] := by
    intro w
    apply List.filter_eq_nil_iff.mpr
    intro a _
    simp only [Bool.and_eq_true, decide_eq_true_eq, not_and]
    omega
  simp [h]

/-- An `update` call with no detections: every track is predicted once
(aging it by one frame) and the expired ones are evicted. -/
lemma bt_update_nil_tracked (bt : ByteTracker) (ts : ℚ) :
    (bt.update [] ts).1.tracked_stracks =
      ((bt.tracked_stracks.map fun t => (t.predict ts).2).filter
        fun t => decide (t.time_since_update ≤ bt.track_buffer)) := by
  cases h : bt.tracked_stracks with
  | nil =>
    simp [ByteTracker.update, associate, candidatePairs, greedyMatch, spawnTracks,
      applyMatches, h]
  | cons a l =>
    simp [ByteTracker.update, associate, candidatePairs, greedyMatch, spawnTracks,
      applyMatches, h]

lemma fin8_val_0 : ((0 : Fin 8) : ℕ) = 0 := rfl
lemma fin8_val_1 : ((1 : Fin 8) : ℕ) = 1 := rfl
lemma fin8_val_2 : ((2 : Fin 8) : ℕ) = 2 := rfl
lemma fin8_val_3 : ((3 : Fin 8) : ℕ) = 3 := rfl
lemma fin8_val_4 : ((4 : Fin 8) : ℕ) = 4 := rfl
lemma fin8_val_5 : ((5 : Fin 8) : ℕ) = 5 := rfl
lemma fin8_val_6 : ((6 : Fin 8) : ℕ) = 6 := rfl
lemma fin8_val_7 : ((7 : Fin 8) : ℕ) = 7 := rfl
lemma fin4_val_0 : ((0 : Fin 4) : ℕ) = 0 := rfl
lemma fin4_val_1 : ((1 : Fin 4) : ℕ) = 1 := rfl
lemma fin4_val_2 : ((2 : Fin 4) : ℕ) = 2 := rfl
lemma fin4_val_3 : ((3 : Fin 4) : ℕ) = 3 := rfl

lemma predict_confidence_stored (t : KalmanBoxTracker) (ts : ℚ) :
    (t.predict ts).2.confidence = t.confidence := rfl

lemma predict_snd_missed (t : KalmanBoxTracker) (ts : ℚ) :
    (t.predict ts).2 = missedFrames t 1 := rfl

lemma missedFrames_tsu (t : KalmanBoxTracker) (N : ℕ) :
    (missedFrames t N).time_since_update = t.time_since_update + N := rfl

lemma missedFrames_id (t : KalmanBoxTracker) (N : ℕ) :
    (missedFrames t N).id = t.id := rfl

lemma iterEmpty_buffer (bt : ByteTracker) (ts : ℕ → ℚ) (N : ℕ) :
    (iterEmptyFrames bt ts N).track_buffer = bt.track_buffer := by
  induction N with
  | zero => rfl
  | succ n ih => simp [iterEmptyFrames, bt_update_buffer, ih]

/-- After `N ≥ 1` detection-free frames, the active list consists of
exactly the original tracks whose `time_since_update` stayed within the
buffer through all `N` frames, each aged by `N` frames. -/
lemma iterEmpty_tracked (bt : ByteTracker) (ts : ℕ → ℚ) :
    ∀ N, 1 ≤ N →
      (iterEmptyFrames bt ts N).tracked_stracks =
        (bt.tracked_stracks.filter fun t =>
          decide (t.time_since_update + N ≤ bt.track_buffer)).map
          fun t => missedFrames t N := by
  intro N
  induction N with
  | zero => omega
  | succ n ih =>
    intro _
    have hstep : (iterEmptyFrames bt ts (n + 1)).tracked_stracks =
        (((iterEmptyFrames bt ts n).tracked_stracks.map fun t =>
          (t.predict (ts (n + 1))).2).filter fun t =>
          decide (t.time_since_update ≤ bt.track_buffer)) := by
      rw [show iterEmptyFrames bt ts (n + 1) =
        ((iterEmptyFrames bt ts n).update [] (ts (n + 1))).1 from rfl,
        bt_update_nil_tracked, iterEmpty_buffer]
    rcases Nat.eq_zero_or_pos n with hn | hn
    · subst hn
      have hg : (fun t => (t.predict (ts 1)).2) = fun t => missedFrames t 1 :=
        funext fun t => predict_snd_missed t _
      rw [hstep, hg, List.filter_map]
      rfl
    · have hcomp : ((fun t => (t.predict (ts (n + 1))).2) ∘ fun t => missedFrames t n) =
          fun t => missedFrames t (n + 1) := by
        funext t
        show ((missedFrames t n).predict (ts (n + 1))).2 = missedFrames t (n + 1)
        rw [predict_snd_missed]
        rfl
      rw [hstep, ih hn, List.map_map, hcomp, List.filter_map, List.filter_filter]
      refine congrArg (List.map fun t => missedFrames t (n + 1)) (List.filter_congr ?_)
      intro a _
      show (decide (a.time_since_update + (n + 1) ≤ bt.track_buffer) &&
          decide (a.time_since_update + n ≤ bt.track_buffer)) =
        decide (a.time_since_update + (n + 1) ≤ bt.track_buffer)
      by_cases h1 : a.time_since_update + (n + 1) ≤ bt.track_buffer
      · have h0 : a.time_since_update + n ≤ bt.track_buffer := by omega
        simp [h1, h0]
      · simp [h1]

lemma predictN_confidence (t : KalmanBoxTracker) (ts : ℕ → ℚ) (j : ℕ) :
    (predictN t ts j).confidence = t.confidence := by
  induction j with
  | zero => rfl
  | succ n ih => rw [predictN, predict_confidence_stored, ih]

lemma missedFrames_hit_streak (t : KalmanBoxTracker) (N : ℕ) :
    (missedFrames t N).hit_streak = t.hit_streak := rfl

lemma init_tsu (b : BoundingBox) (ts : ℚ) (i : ℕ) :
    (KalmanBoxTracker.init b ts i).time_since_update = 0 := rfl

lemma init_hit_streak (b : BoundingBox) (ts : ℚ) (i : ℕ) :
    (KalmanBoxTracker.init b ts i).hit_streak = 0 := rfl

lemma init_track_id (b : BoundingBox) (ts : ℚ) (i : ℕ) :
    (KalmanBoxTracker.init b ts i).id = i := rfl

/-- The tracking data one `update` call returns is exactly the
`hit_streak ≥ 3` load of its final active list. -/
lemma bt_update_output (bt : ByteTracker) (dets : List BoundingBox) (ts : ℚ) :
    (bt.update dets ts).2 =
      ((bt.update dets ts).1.tracked_stracks.filter fun t =>
        decide (3 ≤ t.hit_streak)).map fun t =>
        ({ track_id := t.id, bounding_box := t.get_state, timestamp := ts } :
          TrackingData) := rfl

lemma exBox_confidence : exBox.confidence = 9 / 10 := rfl

lemma exRun1_tracked : exRun1.tracked_stracks = [KalmanBoxTracker.init exBox 1 0] := by
  norm_num [exRun1, ByteTracker.update, ByteTracker.initDefault, ByteTracker.initWith,
    associate, candidatePairs, greedyMatch, applyMatches, spawnTracks, exBox_confidence,
    init_tsu, List.enum, List.range_succ, List.getD]

lemma exRun1_thresh : exRun1.track_thresh = 3 / 5 := rfl
lemma exRun1_match : exRun1.match_thresh = 4 / 5 := rfl
lemma exRun1_buffer : exRun1.track_buffer = 30 := rfl
lemma exRun2_buffer : exRun2.track_buffer = 30 := rfl

/-- The stored state of the scenario's track is still exactly its founding
detection when frame 2 associates (predicting does not move it: its
velocity estimate is zero). -/
lemma exRun1_track_get_state :
    (missedFrames (KalmanBoxTracker.init exBox 1 0) 1).get_state = exBox := by
  norm_num [missedFrames, KalmanBoxTracker.init, KalmanBoxTracker.get_state, ent1, clip,
    exBox, max_def, min_def, List.getD, fin8_val_0, fin8_val_1, fin8_val_2, fin8_val_3]

lemma exRun1_track_iou :
    computeIoU exBox (missedFrames (KalmanBoxTracker.init exBox 1 0) 1).get_state = 1 := by
  rw [exRun1_track_get_state]
  norm_num [computeIoU, exBox]

/-- On frame 2 the track is matched (IoU 1 against the identical detection)
and updated. -/
lemma exRun2_tracked : exRun2.tracked_stracks =
    [KalmanBoxTracker.update (missedFrames (KalmanBoxTracker.init exBox 1 0) 1)
      exBox 2] := by
  rw [show exRun2.tracked_stracks = ((exRun1.update [exBox] 2).1).tracked_stracks
    from rfl]
  rw [ByteTracker.update]
  simp only [exRun1_tracked, exRun1_thresh, exRun1_match, exRun1_buffer]
  norm_num [associate, candidatePairs, greedyMatch, applyMatches, spawnTracks,
    predict_snd_missed, update_tsu, List.mergeSort_singleton, exRun1_track_iou,
    exBox_confidence, List.filterMap_cons, List.filterMap_nil,
    List.enum, List.range_succ, List.getD]

lemma computeIoU_comm (b1 b2 : BoundingBox) : computeIoU b1 b2 = computeIoU b2 b1 := by
  simp only [computeIoU]
  rw [max_comm (b1.x - b1.width / 2), max_comm (b1.y - b1.height / 2),
    min_comm (b1.x + b1.width / 2), min_comm (b1.y + b1.height / 2),
    add_comm (b1.width * b1.height)]

lemma computeIoU_nonneg_le_one (b1 b2 : BoundingBox)
    (hw1 : 0 ≤ b1.width) (_hh1 : 0 ≤ b1.height)
    (hw2 : 0 ≤ b2.width) (_hh2 : 0 ≤ b2.height) :
    0 ≤ computeIoU b1 b2 ∧ computeIoU b1 b2 ≤ 1 := by
  simp only [computeIoU]
  split_ifs with h1 h2
  · norm_num
  · norm_num
  · push_neg at h1 h2
    obtain ⟨hx, hy⟩ := h1
    have hix : 0 < min (b1.x + b1.width / 2) (b2.x + b2.width / 2) -
        max (b1.x - b1.width / 2) (b2.x - b2.width / 2) := by linarith
    have hiy : 0 < min (b1.y + b1.height / 2) (b2.y + b2.height / 2) -
        max (b1.y - b1.height / 2) (b2.y - b2.height / 2) := by linarith
    have hxw1 : min (b1.x + b1.width / 2) (b2.x + b2.width / 2) -
        max (b1.x - b1.width / 2) (b2.x - b2.width / 2) ≤ b1.width := by
      have h1l := min_le_left (b1.x + b1.width / 2) (b2.x + b2.width / 2)
      have h1r := le_max_left (b1.x - b1.width / 2) (b2.x - b2.width / 2)
      linarith
    have hxw2 : min (b1.x + b1.width / 2) (b2.x + b2.width / 2) -
        max (b1.x - b1.width / 2) (b2.x - b2.width / 2) ≤ b2.width := by
      have h1l := min_le_right (b1.x + b1.width / 2) (b2.x + b2.width / 2)
      have h1r := le_max_right (b1.x - b1.width / 2) (b2.x - b2.width / 2)
      linarith
    have hyh1 : min (b1.y + b1.height / 2) (b2.y + b2.height / 2) -
        max (b1.y - b1.height / 2) (b2.y - b2.height / 2) ≤ b1.height := by
      have h1l := min_le_left (b1.y + b1.height / 2) (b2.y + b2.height / 2)
      have h1r := le_max_left (b1.y - b1.height / 2) (b2.y - b2.height / 2)
      linarith
    have hyh2 : min (b1.y + b1.height / 2) (b2.y + b2.height / 2) -
        max (b1.y - b1.height / 2) (b2.y - b2.height / 2) ≤ b2.height := by
      have h1l := min_le_right (b1.y + b1.height / 2) (b2.y + b2.height / 2)
      have h1r := le_max_right (b1.y - b1.height / 2) (b2.y - b2.height / 2)
      linarith
    have hinter1 : (min (b1.x + b1.width / 2) (b2.x + b2.width / 2) -
        max (b1.x - b1.width / 2) (b2.x - b2.width / 2)) *
        (min (b1.y + b1.height / 2) (b2.y + b2.height / 2) -
          max (b1.y - b1.height / 2) (b2.y - b2.height / 2)) ≤
        b1.width * b1.height :=
      mul_le_mul hxw1 hyh1 (le_of_lt hiy) hw1
    have hinter2 : (min (b1.x + b1.width / 2) (b2.x + b2.width / 2) -
        max (b1.x - b1.width / 2) (b2.x - b2.width / 2)) *
        (min (b1.y + b1.height / 2) (b2.y + b2.height / 2) -
          max (b1.y - b1.height / 2) (b2.y - b2.height / 2)) ≤
        b2.width * b2.height :=
      mul_le_mul hxw2 hyh2 (le_of_lt hiy) hw2
    have hipos : 0 < (min (b1.x + b1.width / 2) (b2.x + b2.width / 2) -
        max (b1.x - b1.width / 2) (b2.x - b2.width / 2)) *
        (min (b1.y + b1.height / 2) (b2.y + b2.height / 2) -
          max (b1.y - b1.height / 2) (b2.y - b2.height / 2)) := mul_pos hix hiy
    have hupos : (0 : ℚ) < b1.width * b1.height + b2.width * b2.height -
        (min (b1.x + b1.width / 2) (b2.x + b2.width / 2) -
          max (b1.x - b1.width / 2) (b2.x - b2.width / 2)) *
        (min (b1.y + b1.height / 2) (b2.y + b2.height / 2) -
          max (b1.y - b1.height / 2) (b2.y - b2.height / 2)) := by linarith
    constructor
    · exact div_nonneg (le_of_lt hipos) (le_of_lt hupos)
    · rw [div_le_one hupos]
      linarith

lemma computeIoU_self (b : BoundingBox) (hw : 0 < b.width) (hh : 0 < b.height) :
    computeIoU b b = 1 := by
  simp only [computeIoU]
  rw [max_self, max_self, min_self, min_self]
  rw [if_neg, if_neg]
  · have hx : b.x + b.width / 2 - (b.x - b.width / 2) = b.width := by ring
    have hy : b.y + b.height / 2 - (b.y - b.height / 2) = b.height := by ring
    rw [hx, hy]
    have : b.width * b.height + b.width * b.height - b.width * b.height =
        b.width * b.height := by ring
    rw [this]
    exact div_self (ne_of_gt (mul_pos hw hh))
  · have hx : b.x + b.width / 2 - (b.x - b.width / 2) = b.width := by ring
    have hy : b.y + b.height / 2 - (b.y - b.height / 2) = b.height := by ring
    rw [hx, hy]
    have : b.width * b.height + b.width * b.height - b.width * b.height =
        b.width * b.height := by ring
    rw [this]
    exact not_le.mpr (mul_pos hw hh)
  · push_neg
    constructor <;> linarith

lemma computeIoU_disjoint (b1 b2 : BoundingBox)
    (h : b1.x + b1.width / 2 ≤ b2.x - b2.width / 2 ∨
      b2.x + b2.width / 2 ≤ b1.x - b1.width / 2 ∨
      b1.y + b1.height / 2 ≤ b2.y - b2.height / 2 ∨
      b2.y + b2.height / 2 ≤ b1.y - b1.height / 2) :
    computeIoU b1 b2 = 0 := by
  simp only [computeIoU]
  rw [if_pos]
  rcases h with h | h | h | h
  · left
    have h1 := min_le_left (b1.x + b1.width / 2) (b2.x + b2.width / 2)
    have h2 := le_max_right (b1.x - b1.width / 2) (b2.x - b2.width / 2)
    linarith
  · left
    have h1 := min_le_right (b1.x + b1.width / 2) (b2.x + b2.width / 2)
    have h2 := le_max_left (b1.x - b1.width / 2) (b2.x - b2.width / 2)
    linarith
  · right
    have h1 := min_le_left (b1.y + b1.height / 2) (b2.y + b2.height / 2)
    have h2 := le_max_right (b1.y - b1.height / 2) (b2.y - b2.height / 2)
    linarith
  · right
    have h1 := min_le_right (b1.y + b1.height / 2) (b2.y + b2.height / 2)
    have h2 := le_max_left (b1.y - b1.height / 2) (b2.y - b2.height / 2)
    linarith

lemma progressValue_zero (n : ℕ) : progressValue n 0 = 0 := rfl

lemma progressValue_one (n : ℕ) : progressValue n 1 = 1 / 10 := rfl

lemma progressValue_frame (n k : ℕ) (h2 : 2 ≤ k) (h : k < n + 2) :
    progressValue n k = 1 / 10 + 7 / 10 * (((k - 2 : ℕ) : ℚ) / (n : ℚ)) := by
  unfold progressValue
  rw [if_neg (by omega), if_neg (by omega), if_pos h]

lemma progressValue_encoding (n k : ℕ) (h : k = n + 2) :
    progressValue n k = 9 / 10 := by
  unfold progressValue
  rw [if_neg (by omega), if_neg (by omega), if_neg (by omega), if_pos h]

lemma progressValue_done (n k : ℕ) (h : n + 2 < k) : progressValue n k = 1 := by
  unfold progressValue
  rw [if_neg (by omega), if_neg (by omega), if_neg (by omega), if_neg (by omega)]

lemma progressValue_mono (n k : ℕ) : progressValue n k ≤ progressValue n (k + 1) := by
  by_cases hk0 : k = 0
  · subst hk0
    rw [progressValue_zero, progressValue_one]
    norm_num
  by_cases hk1 : k = 1
  · subst hk1
    by_cases hn : n = 0
    · subst hn
      rw [progressValue_one, progressValue_encoding 0 2 rfl]
      norm_num
    · rw [progressValue_one, progressValue_frame n 2 (le_refl 2) (by omega)]
      norm_num
  by_cases hklt : k + 1 < n + 2
  · have hn : 0 < n := by omega
    have hnq : (0 : ℚ) < (n : ℚ) := by exact_mod_cast hn
    rw [progressValue_frame n k (by omega) (by omega),
      progressValue_frame n (k + 1) (by omega) hklt,
      show k + 1 - 2 = (k - 2) + 1 from by omega]
    have hdiv : ((k - 2 : ℕ) : ℚ) / (n : ℚ) ≤ (((k - 2) + 1 : ℕ) : ℚ) / (n : ℚ) := by
      gcongr
      exact_mod_cast Nat.le_succ (k - 2)
    nlinarith
  by_cases hkeq : k + 1 = n + 2
  · have hn : 0 < n := by omega
    have hnq : (0 : ℚ) < (n : ℚ) := by exact_mod_cast hn
    rw [progressValue_frame n k (by omega) (by omega), progressValue_encoding n (k + 1) hkeq]
    have hdiv : ((k - 2 : ℕ) : ℚ) / (n : ℚ) ≤ 1 := by
      rw [div_le_one hnq]
      exact_mod_cast (by omega : k - 2 ≤ n)
    nlinarith
  by_cases hk2 : k = n + 2
  · rw [progressValue_encoding n k hk2, progressValue_done n (k + 1) (by omega)]
    norm_num
  · rw [progressValue_done n k (by omega), progressValue_done n (k + 1) (by omega)]

lemma progressValue_bounds (n k : ℕ) :
    0 ≤ progressValue n k ∧ progressValue n k ≤ 1 := by
  by_cases hk0 : k = 0
  · subst hk0
    rw [progressValue_zero]
    norm_num
  by_cases hk1 : k = 1
  · subst hk1
    rw [progressValue_one]
    norm_num
  by_cases hklt : k < n + 2
  · have hn : 0 < n := by omega
    have hnq : (0 : ℚ) < (n : ℚ) := by exact_mod_cast hn
    rw [progressValue_frame n k (by omega) hklt]
    have h0 : (0 : ℚ) ≤ ((k - 2 : ℕ) : ℚ) / (n : ℚ) :=
      div_nonneg (by positivity) (le_of_lt hnq)
    have hle : ((k - 2 : ℕ) : ℚ) / (n : ℚ) ≤ 1 := by
      rw [div_le_one hnq]
      exact_mod_cast (by omega : k - 2 ≤ n)
    constructor <;> nlinarith
  by_cases hk2 : k = n + 2
  · rw [progressValue_encoding n k hk2]
    norm_num
  · rw [progressValue_done n k (by omega)]
    norm_num

/-! ### Claim theorems -/

/-- C2 (confirmed).  For every track with a fresh match
(`time_since_update = 0`), across consecutive detection-free frames its
`time_since_update` grows by one per frame; it is still active after any
`N ≤ track_buffer` such frames, and after `track_buffer + 1` such frames no
track with its identity remains active: eviction happens exactly when
`time_since_update` first exceeds `track_buffer`, i.e. at
`N = track_buffer + 1`. -/
theorem c2_eviction_exactly_after_buffer_plus_one (bt : ByteTracker)
    (ts : ℕ → ℚ) (tr : KalmanBoxTracker) (htr : tr ∈ bt.tracked_stracks)
    (h0 : tr.time_since_update = 0) :
    (∀ N, N ≤ bt.track_buffer →
      ∃ u ∈ (iterEmptyFrames bt ts N).tracked_stracks,
        u.id = tr.id ∧ u.time_since_update = N) ∧
    (∀ u ∈ (iterEmptyFrames bt ts (bt.track_buffer + 1)).tracked_stracks,
      u.id ≠ tr.id) := by
  constructor
  · intro N hN
    match N with
    | 0 => exact ⟨tr, htr, rfl, h0⟩
    | Nat.succ m =>
      refine ⟨missedFrames tr (m + 1), ?_, missedFrames_id tr (m + 1), ?_⟩
      · rw [iterEmpty_tracked bt ts (m + 1) (Nat.succ_le_succ (Nat.zero_le m))]
        exact List.mem_map_of_mem _ (List.mem_filter.mpr
          ⟨htr, decide_eq_true_eq.mpr (by omega)⟩)
      · rw [missedFrames_tsu, h0, Nat.zero_add]
  · intro u hu
    rw [iterEmpty_tracked bt ts (bt.track_buffer + 1)
      (Nat.succ_le_succ (Nat.zero_le _))] at hu
    rcases List.mem_map.mp hu with ⟨t0, ht0, rfl⟩
    have := decide_eq_true_eq.mp (List.mem_filter.mp ht0).2
    omega

/-- Witness for C2 at a concrete input. -/
theorem c2_eviction_witness :
    (dummyTracker ∈
      ({ ByteTracker.initDefault with
        tracked_stracks := [dummyTracker] } : ByteTracker).tracked_stracks ∧
      dummyTracker.time_since_update = 0) ∧
    ((∀ N, N ≤ ({ ByteTracker.initDefault with
        tracked_stracks := [dummyTracker] } : ByteTracker).track_buffer →
      ∃ u ∈ (iterEmptyFrames { ByteTracker.initDefault with
        tracked_stracks := [dummyTracker] } (fun n => (n : ℚ)) N).tracked_stracks,
        u.id = dummyTracker.id ∧ u.time_since_update = N) ∧
    (∀ u ∈ (iterEmptyFrames { ByteTracker.initDefault with
        tracked_stracks := [dummyTracker] } (fun n => (n : ℚ))
        (({ ByteTracker.initDefault with
          tracked_stracks := [dummyTracker] } : ByteTracker).track_buffer +
          1)).tracked_stracks,
      u.id ≠ dummyTracker.id)) :=
  ⟨⟨List.mem_singleton.mpr rfl, rfl⟩,
    c2_eviction_exactly_after_buffer_plus_one _ _ _
      (List.mem_singleton.mpr rfl) rfl⟩

/-- C10 (confirmed, implicit claim).  The lost list is empty after every
`update` call: newly evicted tracks carry `time_since_update > track_buffer`
and are filtered out of the lost list in the same call, so starting from any
state with an empty lost list (as built by `__init__` or `reset`) the lost
list stays empty and `get_performance_stats` reports `lost_tracks = 0`. -/
theorem c10_lost_list_always_empty (bt : ByteTracker) (dets : List BoundingBox)
    (ts : ℚ) (h : bt.lost_stracks = []) :
    (bt.update dets ts).1.lost_stracks = [] ∧
    (bt.update dets ts).1.get_performance_stats.lost_tracks = 0 ∧
    (∀ tt mt : ℚ, ∀ tb fr : ℕ, (ByteTracker.initWith tt tb mt fr).lost_stracks = []) ∧
    (∀ b : ByteTracker, b.reset.lost_stracks = []) := by
  refine ⟨?_, ?_, fun _ _ _ _ => rfl, fun _ => rfl⟩
  · rw [bt_update_lost, h]
    rfl
  · show ((bt.update dets ts).1.lost_stracks).length = 0
    rw [bt_update_lost, h]
    rfl

/-- Witness for C10 at a concrete input. -/
theorem c10_lost_witness :
    ByteTracker.initDefault.lost_stracks = [] ∧
    ((ByteTracker.initDefault.update [] 0).1.lost_stracks = [] ∧
      (ByteTracker.initDefault.update [] 0).1.get_performance_stats.lost_tracks = 0 ∧
      (∀ tt mt : ℚ, ∀ tb fr : ℕ,
        (ByteTracker.initWith tt tb mt fr).lost_stracks = []) ∧
      (∀ b : ByteTracker, b.reset.lost_stracks = [])) :=
  ⟨rfl, c10_lost_list_always_empty ByteTracker.initDefault [] 0 rfl⟩

lemma tab1_eight (f : Fin 8 → ℚ) :
    tab1 f = [f 0, f 1, f 2, f 3, f 4, f 5, f 6, f 7] := rfl

lemma tab1_four (f : Fin 4 → ℚ) : tab1 f = [f 0, f 1, f 2, f 3] := rfl

lemma tab2_88 (f : Fin 8 → Fin 8 → ℚ) :
    tab2 f = [tab1 (f 0), tab1 (f 1), tab1 (f 2), tab1 (f 3),
      tab1 (f 4), tab1 (f 5), tab1 (f 6), tab1 (f 7)] := rfl

lemma tab2_44 (f : Fin 4 → Fin 4 → ℚ) :
    tab2 f = [tab1 (f 0), tab1 (f 1), tab1 (f 2), tab1 (f 3)] := rfl

lemma tab2_84 (f : Fin 8 → Fin 4 → ℚ) :
    tab2 f = [tab1 (f 0), tab1 (f 1), tab1 (f 2), tab1 (f 3),
      tab1 (f 4), tab1 (f 5), tab1 (f 6), tab1 (f 7)] := rfl

lemma sa4_00 : (0 : Fin 4).succAbove (0 : Fin 3) = (1 : Fin 4) := rfl
lemma sa4_01 : (0 : Fin 4).succAbove (1 : Fin 3) = (2 : Fin 4) := rfl
lemma sa4_02 : (0 : Fin 4).succAbove (2 : Fin 3) = (3 : Fin 4) := rfl
lemma sa4_10 : (1 : Fin 4).succAbove (0 : Fin 3) = (0 : Fin 4) := rfl
lemma sa4_11 : (1 : Fin 4).succAbove (1 : Fin 3) = (2 : Fin 4) := rfl
lemma sa4_12 : (1 : Fin 4).succAbove (2 : Fin 3) = (3 : Fin 4) := rfl
lemma sa4_20 : (2 : Fin 4).succAbove (0 : Fin 3) = (0 : Fin 4) := rfl
lemma sa4_21 : (2 : Fin 4).succAbove (1 : Fin 3) = (1 : Fin 4) := rfl
lemma sa4_22 : (2 : Fin 4).succAbove (2 : Fin 3) = (3 : Fin 4) := rfl
lemma sa4_30 : (3 : Fin 4).succAbove (0 : Fin 3) = (0 : Fin 4) := rfl
lemma sa4_31 : (3 : Fin 4).succAbove (1 : Fin 3) = (1 : Fin 4) := rfl
lemma sa4_32 : (3 : Fin 4).succAbove (2 : Fin 3) = (2 : Fin 4) := rfl
lemma sa3_00 : (0 : Fin 3).succAbove (0 : Fin 2) = (1 : Fin 3) := rfl
lemma sa3_01 : (0 : Fin 3).succAbove (1 : Fin 2) = (2 : Fin 3) := rfl
lemma sa3_10 : (1 : Fin 3).succAbove (0 : Fin 2) = (0 : Fin 3) := rfl
lemma sa3_11 : (1 : Fin 3).succAbove (1 : Fin 2) = (2 : Fin 3) := rfl
lemma sa3_20 : (2 : Fin 3).succAbove (0 : Fin 2) = (0 : Fin 3) := rfl
lemma sa3_21 : (2 : Fin 3).succAbove (1 : Fin 2) = (1 : Fin 3) := rfl

lemma c3_E0 : tab2 initCovariance =
    [[1, 0, 0, 0, 0, 0, 0, 0],
     [0, 1, 0, 0, 0, 0, 0, 0],
     [0, 0, 1, 0, 0, 0, 0, 0],
     [0, 0, 0, 1, 0, 0, 0, 0],
     [0, 0, 0, 0, 1000, 0, 0, 0],
     [0, 0, 0, 0, 0, 1000, 0, 0],
     [0, 0, 0, 0, 0, 0, 1000, 0],
     [0, 0, 0, 0, 0, 0, 0, 1000]] := by
  rw [tab2_88]
  norm_num [tab1_eight, initCovariance, Fin.ext_iff, fin8_val_0, fin8_val_1, fin8_val_2,
    fin8_val_3, fin8_val_4, fin8_val_5, fin8_val_6, fin8_val_7]

lemma c3_E1 : tab1 (matVec (transitionM 1) (ent1 [(1:ℚ)/2, 1/2, 1/5, 1/5, 0, 0, 0, 0])) =
    [1/2, 1/2, 1/5, 1/5, 0, 0, 0, 0] := by
  rw [tab1_eight]
  norm_num [matVec, transitionM, ent1, Fin.sum_univ_eight, List.getD, Fin.ext_iff,
    fin8_val_0, fin8_val_1, fin8_val_2, fin8_val_3,
    fin8_val_4, fin8_val_5, fin8_val_6, fin8_val_7]

set_option maxHeartbeats 2000000 in
lemma c3_E2 : tab2 (matAdd (matMul (matMul (transitionM 1) (ent2
      ([[1, 0, 0, 0, 0, 0, 0, 0],
        [0, 1, 0, 0, 0, 0, 0, 0],
        [0, 0, 1, 0, 0, 0, 0, 0],
        [0, 0, 0, 1, 0, 0, 0, 0],
        [0, 0, 0, 0, 1000, 0, 0, 0],
        [0, 0, 0, 0, 0, 1000, 0, 0],
        [0, 0, 0, 0, 0, 0, 1000, 0],
        [0, 0, 0, 0, 0, 0, 0, 1000]] : List (List ℚ))))
      (matT (transitionM 1))) (matSmul 1 processNoiseM)) =
    [[100101/100, 0, 0, 0, 1000, 0, 0, 0],
     [0, 100101/100, 0, 0, 0, 1000, 0, 0],
     [0, 0, 100101/100, 0, 0, 0, 1000, 0],
     [0, 0, 0, 100101/100, 0, 0, 0, 1000],
     [1000, 0, 0, 0, 100001/100, 0, 0, 0],
     [0, 1000, 0, 0, 0, 100001/100, 0, 0],
     [0, 0, 1000, 0, 0, 0, 100001/100, 0],
     [0, 0, 0, 1000, 0, 0, 0, 100001/100]] := by
  rw [tab2_88]
  norm_num [tab1_eight, matAdd, matMul, matT, matSmul, transitionM, processNoiseM, ent2,
    Fin.sum_univ_eight, List.getD, Fin.ext_iff,
    fin8_val_0, fin8_val_1, fin8_val_2, fin8_val_3,
    fin8_val_4, fin8_val_5, fin8_val_6, fin8_val_7]

lemma c3_E3 : tab1 (vecSub
      (fun i => if i = 0 then (3:ℚ) / 4 else if i = 1 then 1 / 2
        else if i = 2 then 1 / 5 else 1 / 5)
      (matVec measurementM (ent1 [(1:ℚ)/2, 1/2, 1/5, 1/5, 0, 0, 0, 0]))) =
    [1/4, 0, 0, 0] := by
  rw [tab1_four]
  norm_num [vecSub, matVec, measurementM, ent1, Fin.sum_univ_eight, List.getD, Fin.ext_iff,
    fin4_val_0, fin4_val_1, fin4_val_2, fin4_val_3,
    fin8_val_0, fin8_val_1, fin8_val_2, fin8_val_3,
    fin8_val_4, fin8_val_5, fin8_val_6, fin8_val_7]

set_option maxHeartbeats 2000000 in
lemma c3_E4 : tab2 (matAdd (matMul (matMul measurementM (ent2
      ([[100101/100, 0, 0, 0, 1000, 0, 0, 0],
        [0, 100101/100, 0, 0, 0, 1000, 0, 0],
        [0, 0, 100101/100, 0, 0, 0, 1000, 0],
        [0, 0, 0, 100101/100, 0, 0, 0, 1000],
        [1000, 0, 0, 0, 100001/100, 0, 0, 0],
        [0, 1000, 0, 0, 0, 100001/100, 0, 0],
        [0, 0, 1000, 0, 0, 0, 100001/100, 0],
        [0, 0, 0, 1000, 0, 0, 0, 100001/100]] : List (List ℚ))))
      (matT measurementM)) measurementNoiseM) =
    [[100111/100, 0, 0, 0],
     [0, 100111/100, 0, 0],
     [0, 0, 100111/100, 0],
     [0, 0, 0, 100111/100]] := by
  rw [tab2_44]
  norm_num [tab1_four, matAdd, matMul, matT, measurementM, measurementNoiseM, ent2,
    Fin.sum_univ_eight, Fin.sum_univ_four, List.getD, Fin.ext_iff,
    fin4_val_0, fin4_val_1, fin4_val_2, fin4_val_3,
    fin8_val_0, fin8_val_1, fin8_val_2, fin8_val_3,
    fin8_val_4, fin8_val_5, fin8_val_6, fin8_val_7]

set_option maxHeartbeats 2000000 in
lemma c3_E5 : tab2 (inv4 (ent2 ([[100111/100, 0, 0, 0],
      [0, 100111/100, 0, 0],
      [0, 0, 100111/100, 0],
      [0, 0, 0, 100111/100]] : List (List ℚ)))) =
    [[100/100111, 0, 0, 0],
     [0, 100/100111, 0, 0],
     [0, 0, 100/100111, 0],
     [0, 0, 0, 100/100111]] := by
  rw [tab2_44]
  norm_num [tab1_four, inv4, det4, det3, det2, minor4, minor3, ent2,
    Fin.sum_univ_four, Fin.sum_univ_three, List.getD, Fin.ext_iff,
    sa4_00, sa4_01, sa4_02, sa4_10, sa4_11, sa4_12, sa4_20, sa4_21, sa4_22,
    sa4_30, sa4_31, sa4_32, sa3_00, sa3_01, sa3_10, sa3_11, sa3_20, sa3_21,
    fin4_val_0, fin4_val_1, fin4_val_2, fin4_val_3]

set_option maxHeartbeats 4000000 in
lemma c3_E6 : tab2 (matMul (matMul ((ent2
      ([[100101/100, 0, 0, 0, 1000, 0, 0, 0],
        [0, 100101/100, 0, 0, 0, 1000, 0, 0],
        [0, 0, 100101/100, 0, 0, 0, 1000, 0],
        [0, 0, 0, 100101/100, 0, 0, 0, 1000],
        [1000, 0, 0, 0, 100001/100, 0, 0, 0],
        [0, 1000, 0, 0, 0, 100001/100, 0, 0],
        [0, 0, 1000, 0, 0, 0, 100001/100, 0],
        [0, 0, 0, 1000, 0, 0, 0, 100001/100]] : List (List ℚ))) : Fin 8 → Fin 8 → ℚ)
      (matT measurementM)) ((ent2
      ([[100/100111, 0, 0, 0],
        [0, 100/100111, 0, 0],
        [0, 0, 100/100111, 0],
        [0, 0, 0, 100/100111]] : List (List ℚ))) : Fin 4 → Fin 4 → ℚ)) =
    [[100101/100111, 0, 0, 0],
     [0, 100101/100111, 0, 0],
     [0, 0, 100101/100111, 0],
     [0, 0, 0, 100101/100111],
     [100000/100111, 0, 0, 0],
     [0, 100000/100111, 0, 0],
     [0, 0, 100000/100111, 0],
     [0, 0, 0, 100000/100111]] := by
  rw [tab2_84]
  norm_num [tab1_four, matMul, matT, measurementM, ent2,
    Fin.sum_univ_eight, Fin.sum_univ_four, List.getD, Fin.ext_iff,
    fin4_val_0, fin4_val_1, fin4_val_2, fin4_val_3,
    fin8_val_0, fin8_val_1, fin8_val_2, fin8_val_3,
    fin8_val_4, fin8_val_5, fin8_val_6, fin8_val_7]

lemma c3_E7 : tab1 (vecAdd ((ent1 [(1:ℚ)/2, 1/2, 1/5, 1/5, 0, 0, 0, 0]) : Fin 8 → ℚ)
      (matVec ((ent2
        ([[100101/100111, 0, 0, 0],
          [0, 100101/100111, 0, 0],
          [0, 0, 100101/100111, 0],
          [0, 0, 0, 100101/100111],
          [100000/100111, 0, 0, 0],
          [0, 100000/100111, 0, 0],
          [0, 0, 100000/100111, 0],
          [0, 0, 0, 100000/100111]] : List (List ℚ))) : Fin 8 → Fin 4 → ℚ)
        ((ent1 [(1:ℚ)/4, 0, 0, 0]) : Fin 4 → ℚ))) =
    [300323/400444, 1/2, 1/5, 1/5, 25000/100111, 0, 0, 0] := by
  rw [tab1_eight]
  norm_num [vecAdd, matVec, ent1, ent2, Fin.sum_univ_four, List.getD, Fin.ext_iff,
    fin4_val_0, fin4_val_1, fin4_val_2, fin4_val_3,
    fin8_val_0, fin8_val_1, fin8_val_2, fin8_val_3,
    fin8_val_4, fin8_val_5, fin8_val_6, fin8_val_7]

lemma c3_state_eval : ((KalmanBoxTracker.init exBox 0 0).update exMoveBox 1).state =
    [300323/400444, 1/2, 1/5, 1/5, 25000/100111, 0, 0, 0] := by
  rw [KalmanBoxTracker.update]
  simp only [KalmanBoxTracker.init, exBox, exMoveBox, sub_zero]
  rw [c3_E0, c3_E2, c3_E4, c3_E5, c3_E6, c3_E1, c3_E3]
  exact c3_E7

lemma c3_E8 : tab1 (matVec (transitionM 1)
      (ent1 [(300323:ℚ)/400444, 1/2, 1/5, 1/5, 25000/100111, 0, 0, 0])) =
    [400323/400444, 1/2, 1/5, 1/5, 25000/100111, 0, 0, 0] := by
  rw [tab1_eight]
  norm_num [matVec, transitionM, ent1, Fin.sum_univ_eight, List.getD, Fin.ext_iff,
    fin8_val_0, fin8_val_1, fin8_val_2, fin8_val_3,
    fin8_val_4, fin8_val_5, fin8_val_6, fin8_val_7]

/-- Counterexample to C3.  A tracker updated with a displaced detection
carries a nonzero stored velocity (entry 4 is `25000/100111`), yet a
subsequent `predict` call leaves the stored state exactly as it was: the
stored state after `predict` is *not* the transition matrix applied to the
pre-call state, refuting the claim that every `predict` call permanently
advances the filter. -/
theorem c3_counterexample :
    (((KalmanBoxTracker.init exBox 0 0).update exMoveBox 1).predict 2).2.state =
      ((KalmanBoxTracker.init exBox 0 0).update exMoveBox 1).state ∧
    (((KalmanBoxTracker.init exBox 0 0).update exMoveBox 1).state.getD 4 0 : ℚ) =
      25000 / 100111 ∧
    (((KalmanBoxTracker.init exBox 0 0).update exMoveBox 1).predict 2).2.state ≠
      tab1 (matVec
        (transitionM (2 - ((KalmanBoxTracker.init exBox 0 0).update exMoveBox 1).last_timestamp))
        (ent1 ((KalmanBoxTracker.init exBox 0 0).update exMoveBox 1).state)) := by
  have hpred : (((KalmanBoxTracker.init exBox 0 0).update exMoveBox 1).predict 2).2.state =
      ((KalmanBoxTracker.init exBox 0 0).update exMoveBox 1).state := rfl
  have hlast : ((KalmanBoxTracker.init exBox 0 0).update exMoveBox 1).last_timestamp = 1 := rfl
  refine ⟨hpred, ?_, ?_⟩
  · rw [c3_state_eval]
    rfl
  · rw [hpred, hlast, c3_state_eval]
    have h21 : (2:ℚ) - 1 = 1 := by norm_num
    rw [h21, c3_E8]
    intro h
    injection h with h0 _
    norm_num at h0

/-- C3 (corrected).  `predict` does not commit anything about the motion
state: the stored state vector, covariance, stored confidence and
`last_timestamp` are all unchanged by a `predict` call (only `age` and
`time_since_update` advance); the stored state is advanced only inside
`update`, which also commits the new timestamp. -/
theorem c3_predict_commits_nothing (t : KalmanBoxTracker) (b : BoundingBox)
    (ts : ℚ) :
    (t.predict ts).2.state = t.state ∧
    (t.predict ts).2.covariance = t.covariance ∧
    (t.predict ts).2.last_timestamp = t.last_timestamp ∧
    (t.predict ts).2.confidence = t.confidence ∧
    (t.predict ts).2.age = t.age + 1 ∧
    (t.predict ts).2.time_since_update = t.time_since_update + 1 ∧
    (t.update b ts).last_timestamp = ts :=
  ⟨rfl, rfl, rfl, rfl, rfl, rfl, rfl⟩

/-- C4 (corrected).  The box returned by every consecutive `predict` call
(with no intervening `update`) carries `confidence * 0.95` for the *same*
stored confidence each time: `predict` never writes the decayed value back,
so consecutive predict calls report a constant (hence non-increasing) value,
not a `0.95^k` decay. -/
theorem c4_confidence_constant_across_predicts (t : KalmanBoxTracker)
    (ts : ℕ → ℚ) (j : ℕ) :
    (nthPredictBox t ts j).confidence = t.confidence * (19 / 20) ∧
    (predictN t ts j).confidence = t.confidence ∧
    (nthPredictBox t ts (j + 1)).confidence = (nthPredictBox t ts j).confidence := by
  refine ⟨?_, predictN_confidence t ts j, ?_⟩
  · rw [nthPredictBox, predict_box_confidence, predictN_confidence]
  · rw [nthPredictBox, nthPredictBox, predict_box_confidence, predict_box_confidence,
      predictN_confidence, predictN_confidence]

/-- Counterexample to C4 as stated: for the second of two consecutive
`predict` calls on a freshly initialised tracker with confidence `0.9`, the
reported confidence is `0.9 * 0.95 = 0.855`, not
`0.9 * 0.95² = 0.81225`. -/
theorem c4_counterexample :
    (nthPredictBox (KalmanBoxTracker.init ⟨1/2, 1/2, 1/5, 1/5, 9/10⟩ 0 0)
      (fun n => (n : ℚ)) 1).confidence = (9 / 10) * (19 / 20) ∧
    (nthPredictBox (KalmanBoxTracker.init ⟨1/2, 1/2, 1/5, 1/5, 9/10⟩ 0 0)
      (fun n => (n : ℚ)) 1).confidence ≠ (9 / 10) * (19 / 20) ^ 2 := by
  have h : (nthPredictBox (KalmanBoxTracker.init ⟨1/2, 1/2, 1/5, 1/5, 9/10⟩ 0 0)
      (fun n => (n : ℚ)) 1).confidence = (9 / 10) * (19 / 20) := by
    rw [nthPredictBox, predict_box_confidence, predictN_confidence]
    rfl
  exact ⟨h, by rw [h]; norm_num⟩

/-- Counterexample to C1 as stated: in the concrete three-frame run, the
track is matched on frame 2 (`hit_streak = 1`) and receives no matching
detection on frame 3, yet after frame 3 its `hit_streak` is still `1`, not
`0`: no code path resets `hit_streak` on a missed frame. -/
theorem c1_counterexample :
    exRun2.tracked_stracks.map (fun t => t.hit_streak) = [1] ∧
    exRun3.tracked_stracks.map (fun t => t.hit_streak) = [1] := by
  constructor
  · rw [exRun2_tracked]
    simp [update_hit_streak, missedFrames_hit_streak, init_hit_streak]
  · rw [show exRun3.tracked_stracks = ((exRun2.update [] 3).1).tracked_stracks
      from rfl, bt_update_nil_tracked, exRun2_tracked, exRun2_buffer]
    norm_num [predict_snd_missed, missedFrames_tsu, update_tsu,
      missedFrames_hit_streak, update_hit_streak, init_hit_streak]

/-- C1 (corrected).  `hit_streak` is never reset on a matchless frame:
`predict` (the only per-track step of a frame without a match) leaves it
unchanged, `update` increments it, and a miss following a match leaves the
incremented value in place.  The reporting rule does hold: every entry of
`update`'s public output comes from an active track with `hit_streak ≥ 3`. -/
theorem c1_hit_streak_never_reset (t : KalmanBoxTracker) (b : BoundingBox)
    (ts ts' : ℚ) (bt : ByteTracker) (dets : List BoundingBox) :
    (t.predict ts).2.hit_streak = t.hit_streak ∧
    (t.update b ts).hit_streak = t.hit_streak + 1 ∧
    (((t.update b ts).predict ts').2).hit_streak = t.hit_streak + 1 ∧
    (∀ d ∈ (bt.update dets ts).2,
      ∃ u ∈ (bt.update dets ts).1.tracked_stracks,
        3 ≤ u.hit_streak ∧ d.track_id = u.id) := by
  refine ⟨rfl, rfl, rfl, ?_⟩
  intro d hd
  rw [bt_update_output] at hd
  rcases List.mem_map.mp hd with ⟨u, hu, rfl⟩
  rcases List.mem_filter.mp hu with ⟨hmem, hstreak⟩
  exact ⟨u, hmem, decide_eq_true_eq.mp hstreak, rfl⟩

/-- Counterexample to C9 as stated: a zero-width box is allowed by the
claim's domain (all coordinates and sizes in `[0, 1]`), yet the IoU of that
box with itself is `0`, not `1` — the intersection test
`inter_x_max <= inter_x_min` already fires for a degenerate box. -/
theorem c9_counterexample :
    computeIoU ⟨1/2, 1/2, 0, 1/2, 1⟩ ⟨1/2, 1/2, 0, 1/2, 1⟩ = 0 ∧
    computeIoU ⟨1/2, 1/2, 0, 1/2, 1⟩ ⟨1/2, 1/2, 0, 1/2, 1⟩ ≠ 1 := by
  constructor <;> norm_num [computeIoU]

/-- C9 (corrected).  For boxes with the schema's nonnegative sizes, IoU is
symmetric, lies in `[0, 1]`, vanishes on disjoint boxes (one box entirely
to the left of / right of / above / below the other), and equals `1` on
identical boxes provided the box has positive width and height (for
zero-size boxes it is `0`). -/
theorem c9_iou_properties (b1 b2 : BoundingBox)
    (hw1 : 0 ≤ b1.width) (hh1 : 0 ≤ b1.height)
    (hw2 : 0 ≤ b2.width) (hh2 : 0 ≤ b2.height) :
    computeIoU b1 b2 = computeIoU b2 b1 ∧
    (0 ≤ computeIoU b1 b2 ∧ computeIoU b1 b2 ≤ 1) ∧
    (0 < b1.width → 0 < b1.height → computeIoU b1 b1 = 1) ∧
    ((b1.x + b1.width / 2 ≤ b2.x - b2.width / 2 ∨
      b2.x + b2.width / 2 ≤ b1.x - b1.width / 2 ∨
      b1.y + b1.height / 2 ≤ b2.y - b2.height / 2 ∨
      b2.y + b2.height / 2 ≤ b1.y - b1.height / 2) → computeIoU b1 b2 = 0) :=
  ⟨computeIoU_comm b1 b2,
    computeIoU_nonneg_le_one b1 b2 hw1 hh1 hw2 hh2,
    fun hw hh => computeIoU_self b1 hw hh,
    fun h => computeIoU_disjoint b1 b2 h⟩

/-- The greedy loop accepts each detection index and each tracker index at
most once, never re-using an index from the used sets, and only accepts
cells present in the candidate list. -/
lemma greedyMatch_spec (cands : List (ℚ × ℕ × ℕ)) :
    ∀ usedD usedT : List ℕ,
      (∀ p ∈ greedyMatch cands usedD usedT,
        p.1 ∉ usedD ∧ p.2 ∉ usedT ∧ ∃ s, (s, p.1, p.2) ∈ cands) ∧
      ((greedyMatch cands usedD usedT).map Prod.fst).Nodup ∧
      ((greedyMatch cands usedD usedT).map Prod.snd).Nodup := by
  induction cands with
  | nil =>
    intro usedD usedT
    simp [greedyMatch]
  | cons c rest ih =>
    intro usedD usedT
    obtain ⟨s, d, t⟩ := c
    rw [greedyMatch]
    by_cases h : d ∈ usedD ∨ t ∈ usedT
    · rw [if_pos h]
      refine ⟨fun p hp => ?_, (ih usedD usedT).2.1, (ih usedD usedT).2.2⟩
      obtain ⟨h1, h2, s', hs⟩ := (ih usedD usedT).1 p hp
      exact ⟨h1, h2, s', List.mem_cons_of_mem _ hs⟩
    · rw [if_neg h]
      push_neg at h
      have ihh := ih (d :: usedD) (t :: usedT)
      refine ⟨?_, ?_, ?_⟩
      · intro p hp
        rcases List.mem_cons.mp hp with rfl | hp'
        · exact ⟨h.1, h.2, s, List.mem_cons_self _ _⟩
        · obtain ⟨h1, h2, s', hs⟩ := ihh.1 p hp'
          exact ⟨fun hd => h1 (List.mem_cons_of_mem _ hd),
            fun ht => h2 (List.mem_cons_of_mem _ ht), s',
            List.mem_cons_of_mem _ hs⟩
      · rw [List.map_cons, List.nodup_cons]
        refine ⟨fun hd => ?_, ihh.2.1⟩
        rcases List.mem_map.mp hd with ⟨p, hp, hpd⟩
        exact (ihh.1 p hp).1 (hpd ▸ List.mem_cons_self d usedD)
      · rw [List.map_cons, List.nodup_cons]
        refine ⟨fun ht => ?_, ihh.2.2⟩
        rcases List.mem_map.mp ht with ⟨p, hp, hpt⟩
        exact (ihh.1 p hp).2.1 (hpt ▸ List.mem_cons_self t usedT)

/-- Every candidate cell indexes a real detection and a real tracker. -/
lemma candidatePairs_mem_bounds (dets : List BoundingBox)
    (trks : List KalmanBoxTracker) (thr : ℚ) {s : ℚ} {d t : ℕ}
    (h : (s, d, t) ∈ candidatePairs dets trks thr) :
    d < dets.length ∧ t < trks.length := by
  rw [candidatePairs] at h
  rcases List.mem_flatMap.mp h with ⟨dp, hdp, hin⟩
  obtain ⟨i, db⟩ := dp
  rcases List.mem_filterMap.mp hin with ⟨tp, htp, heq⟩
  obtain ⟨j, tb⟩ := tp
  have hi : i < dets.length := by
    rw [List.enum_eq_zip_range] at hdp
    exact List.mem_range.mp (List.of_mem_zip hdp).1
  have hj : j < trks.length := by
    rw [List.enum_eq_zip_range] at htp
    exact List.mem_range.mp (List.of_mem_zip htp).1
  simp only at heq
  split_ifs at heq
  simp only [Option.some.injEq, Prod.mk.injEq] at heq
  obtain ⟨-, rfl, rfl⟩ := heq
  exact ⟨hi, hj⟩

/-- `_associate`: the matched pairs use pairwise-distinct detection indices
and pairwise-distinct tracker indices, all in range; the unmatched tracker
indices are distinct, in range, and disjoint from the matched ones. -/
lemma associate_spec (dets : List BoundingBox) (trks : List KalmanBoxTracker)
    (thr : ℚ) :
    ((associate dets trks thr).1.map Prod.fst).Nodup ∧
    ((associate dets trks thr).1.map Prod.snd).Nodup ∧
    (∀ p ∈ (associate dets trks thr).1, p.1 < dets.length ∧ p.2 < trks.length) ∧
    (associate dets trks thr).2.2.Nodup ∧
    (∀ t ∈ (associate dets trks thr).2.2,
      t ∉ (associate dets trks thr).1.map Prod.snd) ∧
    (∀ t ∈ (associate dets trks thr).2.2, t < trks.length) := by
  rw [associate]
  by_cases h0 : trks.length = 0
  · rw [if_pos h0]
    simp
  · rw [if_neg h0]
    simp only
    set cands :=
      (candidatePairs dets trks thr).mergeSort fun a b => decide (b.1 ≤ a.1) with hc
    have hg := greedyMatch_spec cands [] []
    have hmem : ∀ p ∈ greedyMatch cands [] [],
        p.1 < dets.length ∧ p.2 < trks.length := by
      intro p hp
      obtain ⟨-, -, s', hs⟩ := hg.1 p hp
      have : (s', p.1, p.2) ∈ candidatePairs dets trks thr :=
        ((List.mergeSort_perm _ _).mem_iff).mp hs
      exact candidatePairs_mem_bounds dets trks thr this
    refine ⟨hg.2.1, hg.2.2, hmem, ?_, ?_, ?_⟩
    · exact (List.nodup_range trks.length).filter _
    · intro t ht
      have := (List.mem_filter.mp ht).2
      simp only [Bool.not_eq_true', decide_eq_false_iff_not] at this
      intro hmem2
      exact absurd (by
        rcases List.mem_map.mp hmem2 with ⟨p, hp, hpt⟩
        exact hpt ▸ List.mem_map_of_mem Prod.snd hp) (by
          simpa [List.contains_iff_exists_mem_beq] using this)
    · intro t ht
      exact List.mem_range.mp (List.mem_of_mem_filter ht)

/-- Reading a duplicate-free list at pairwise-distinct valid positions
yields pairwise-distinct values. -/
lemma nodup_getD_map (l : List ℕ) (hl : l.Nodup) (ms : List (ℕ × ℕ))
    (hms : (ms.map Prod.snd).Nodup) (hbound : ∀ m ∈ ms, m.2 < l.length) :
    (ms.map fun m => l.getD m.2 0).Nodup := by
  induction ms with
  | nil => simp
  | cons m rest ih =>
    rw [List.map_cons, List.nodup_cons]
    rw [List.map_cons, List.nodup_cons] at hms
    constructor
    · intro hmem
      rcases List.mem_map.mp hmem with ⟨m', hm', heq⟩
      have hb : m.2 < l.length := hbound m (List.mem_cons_self m rest)
      have hb' : m'.2 < l.length := hbound m' (List.mem_cons_of_mem m hm')
      rw [List.getD_eq_getElem l 0 hb', List.getD_eq_getElem l 0 hb] at heq
      have : m'.2 = m.2 := (hl.getElem_inj_iff).mp heq
      exact hms.1 (this ▸ List.mem_map_of_mem Prod.snd hm')
    · exact ih hms.2 fun m' hm' => hbound m' (List.mem_cons_of_mem m hm')

/-- C5 (confirmed).  Within one `update` call, across both association
rounds: the round-one pairs use pairwise-distinct high-confidence detection
indices, the round-two pairs use pairwise-distinct low-confidence detection
indices (the two rounds draw from the disjoint high/low splits of the
frame's detections), and the tracker indices of all pairs of both rounds
together are pairwise distinct — no detection feeds two tracks and no track
accepts two detections in one frame. -/
theorem c5_matching_unique (bt : ByteTracker) (dets : List BoundingBox)
    (ts : ℚ) :
    ((bt.frameMatches dets ts).1.map Prod.fst).Nodup ∧
    ((bt.frameMatches dets ts).2.map Prod.fst).Nodup ∧
    (((bt.frameMatches dets ts).1 ++ (bt.frameMatches dets ts).2).map
      Prod.snd).Nodup := by
  rw [ByteTracker.frameMatches]
  simp only
  set high := dets.filter fun d => decide (bt.track_thresh ≤ d.confidence) with hhigh
  set low := dets.filter fun d => decide (d.confidence < bt.track_thresh) with hlow
  set predicted := bt.tracked_stracks.map fun t => (t.predict ts).2 with hpred
  set r1 := associate high predicted bt.match_thresh with hr1
  have h1 := associate_spec high predicted bt.match_thresh
  rw [← hr1] at h1
  by_cases hcond : 0 < low.length ∧ 0 < r1.2.2.length
  · rw [if_pos hcond]
    set r2 := associate low (r1.2.2.map fun i => predicted.getD i dummyTracker)
      (1 / 2) with hr2
    have h2 := associate_spec low
      (r1.2.2.map fun i => predicted.getD i dummyTracker) (1 / 2)
    rw [← hr2] at h2
    refine ⟨h1.1, ?_, ?_⟩
    · rw [show (r2.1.map fun m => ((m.1 : ℕ), r1.2.2.getD m.2 0)).map Prod.fst =
        r2.1.map Prod.fst from by rw [List.map_map]; rfl]
      exact h2.1
    · rw [List.map_append, List.nodup_append]
      refine ⟨h1.2.1, ?_, ?_⟩
      · rw [show (r2.1.map fun m => ((m.1 : ℕ), r1.2.2.getD m.2 0)).map Prod.snd =
          r2.1.map fun m => r1.2.2.getD m.2 0 from by rw [List.map_map]; rfl]
        refine nodup_getD_map r1.2.2 h1.2.2.2.1 r2.1 h2.2.1 fun m hm => ?_
        have := (h2.2.2.1 m hm).2
        rwa [List.length_map] at this
      · intro a ha hb
        rw [show (r2.1.map fun m => ((m.1 : ℕ), r1.2.2.getD m.2 0)).map Prod.snd =
          r2.1.map fun m => r1.2.2.getD m.2 0 from by rw [List.map_map]; rfl] at hb
        rcases List.mem_map.mp hb with ⟨m, hm, heq⟩
        have hblt : m.2 < r1.2.2.length := by
          have := (h2.2.2.1 m hm).2
          rwa [List.length_map] at this
        have hmem : r1.2.2.getD m.2 0 ∈ r1.2.2 := by
          rw [List.getD_eq_getElem _ 0 hblt]
          exact List.getElem_mem hblt
        exact h1.2.2.2.2.1 _ hmem (heq ▸ ha)
  · rw [if_neg hcond]
    simp only [List.map_nil, List.append_nil]
    exact ⟨h1.1, List.nodup_nil, h1.2.1⟩

lemma spawnTracks_nil (th ts : ℚ) (p : List KalmanBoxTracker × ℕ) :
    spawnTracks th ts [] p = p := rfl

lemma spawnTracks_cons (th ts : ℚ) (d : BoundingBox) (rest : List BoundingBox)
    (p : List KalmanBoxTracker × ℕ) :
    spawnTracks th ts (d :: rest) p =
      spawnTracks th ts rest
        (if th ≤ d.confidence then
          (p.1 ++ [KalmanBoxTracker.init d ts p.2], p.2 + 1)
        else p) := rfl

/-- Writing an id-preserving update back at one index leaves the id list
unchanged. -/
lemma map_id_set_update (b : BoundingBox) (ts : ℚ) :
    ∀ (l : List KalmanBoxTracker) (n : ℕ),
      ((l.set n ((l.getD n dummyTracker).update b ts)).map fun t => t.id) =
        l.map fun t => t.id := by
  intro l
  induction l with
  | nil => intro n; rfl
  | cons a l ih =>
    intro n
    cases n with
    | zero => simp [update_track_id]
    | succ n =>
      show ((a :: l.set n ((l.getD n dummyTracker).update b ts)).map
        fun t => t.id) = (a :: l).map fun t => t.id
      rw [List.map_cons, List.map_cons, ih n]

/-- Matched-track updates change no identity. -/
lemma applyMatches_map_id (dets : List BoundingBox) (ts : ℚ) :
    ∀ (ms : List (ℕ × ℕ)) (l : List KalmanBoxTracker),
      ((applyMatches l ms dets ts).map fun t => t.id) = l.map fun t => t.id := by
  intro ms
  induction ms with
  | nil => intro l; rfl
  | cons m rest ih =>
    intro l
    show ((applyMatches
      (l.set m.2 ((l.getD m.2 dummyTracker).update (dets.getD m.1 dummyBox) ts))
      rest dets ts).map fun t => t.id) = l.map fun t => t.id
    rw [ih, map_id_set_update]

/-- The new-track loop hands out the identities `c, c+1, …` in order: every
spawned track's id is fresh (at least the entry counter, below the exit
counter), the spawned ids are pairwise distinct, and the counter never
decreases. -/
lemma spawnTracks_spec (th ts : ℚ) :
    ∀ (seeds : List BoundingBox) (l : List KalmanBoxTracker) (c : ℕ),
      c ≤ (spawnTracks th ts seeds (l, c)).2 ∧
      (∀ t ∈ (spawnTracks th ts seeds (l, c)).1,
        t ∈ l ∨ (c ≤ t.id ∧ t.id < (spawnTracks th ts seeds (l, c)).2)) ∧
      ((∀ t ∈ l, t.id < c) → ((l.map fun t => t.id).Nodup) →
        (((spawnTracks th ts seeds (l, c)).1.map fun t => t.id).Nodup ∧
          ∀ t ∈ (spawnTracks th ts seeds (l, c)).1,
            t.id < (spawnTracks th ts seeds (l, c)).2)) := by
  intro seeds
  induction seeds with
  | nil =>
    intro l c
    rw [spawnTracks_nil]
    exact ⟨le_refl c, fun t ht => Or.inl ht,
      fun hub hnd => ⟨hnd, fun t ht => hub t ht⟩⟩
  | cons d rest ih =>
    intro l c
    rw [spawnTracks_cons]
    by_cases hd : th ≤ d.confidence
    · rw [if_pos hd]
      simp only
      obtain ⟨ih1, ih2, ih3⟩ := ih (l ++ [KalmanBoxTracker.init d ts c]) (c + 1)
      refine ⟨le_trans (Nat.le_succ c) ih1, ?_, ?_⟩
      · intro t ht
        rcases ih2 t ht with hmem | ⟨hge, hlt⟩
        · rcases List.mem_append.mp hmem with hl | hone
          · exact Or.inl hl
          · right
            rw [List.mem_singleton.mp hone, init_track_id]
            exact ⟨le_refl c, lt_of_lt_of_le (Nat.lt_succ_self c) ih1⟩
        · exact Or.inr ⟨le_trans (Nat.le_succ c) hge, hlt⟩
      · intro hub hnd
        refine ih3 ?_ ?_
        · intro t ht
          rcases List.mem_append.mp ht with hl | hone
          · exact lt_trans (hub t hl) (Nat.lt_succ_self c)
          · rw [List.mem_singleton.mp hone, init_track_id]
            exact Nat.lt_succ_self c
        · rw [List.map_append, List.nodup_append]
          refine ⟨hnd, by simp, ?_⟩
          intro a ha hb
          simp only [List.map_cons, List.map_nil, List.mem_singleton,
            init_track_id] at hb
          rcases List.mem_map.mp ha with ⟨u, hu, heq⟩
          have h1 := hub u hu
          rw [heq] at h1
          omega
    · rw [if_neg hd]
      exact ih l c

/-- One frame's effect on identities, stated over the raw pieces `update`
assembles: predicted tracks go through the two rounds of id-preserving
matched updates, new tracks are spawned from the counter, and the buffer
filter evicts.  Identities stay below the exit counter, stay pairwise
distinct, the counter never decreases, and any surviving track with a fresh
identity (one no pre-existing track had) received it from the counter. -/
lemma frame_ids_spec (pre : List KalmanBoxTracker) (ms1 ms2 : List (ℕ × ℕ))
    (hList lList seeds : List BoundingBox) (th ts : ℚ) (buf c : ℕ)
    (hub : ∀ t ∈ pre, t.id < c) (hnd : ((pre.map fun t => t.id).Nodup)) :
    (∀ t ∈ (applyMatches (applyMatches pre ms1 hList ts) ms2 lList ts ++
        (spawnTracks th ts seeds ([], c)).1).filter
        (fun t => decide (t.time_since_update ≤ buf)),
      t.id < (spawnTracks th ts seeds ([], c)).2) ∧
    ((((applyMatches (applyMatches pre ms1 hList ts) ms2 lList ts ++
        (spawnTracks th ts seeds ([], c)).1).filter
        (fun t => decide (t.time_since_update ≤ buf))).map fun t => t.id).Nodup) ∧
    c ≤ (spawnTracks th ts seeds ([], c)).2 ∧
    (∀ t ∈ (applyMatches (applyMatches pre ms1 hList ts) ms2 lList ts ++
        (spawnTracks th ts seeds ([], c)).1).filter
        (fun t => decide (t.time_since_update ≤ buf)),
      (∀ u ∈ pre, t.id ≠ u.id) → c ≤ t.id) := by
  obtain ⟨hs1, hs2, hs3⟩ := spawnTracks_spec th ts seeds [] c
  obtain ⟨hsnd, hslt⟩ := hs3 (by simp) (by simp)
  have hA : ((applyMatches (applyMatches pre ms1 hList ts) ms2 lList ts).map
      fun t => t.id) = pre.map fun t => t.id := by
    rw [applyMatches_map_id, applyMatches_map_id]
  have hAmem : ∀ t ∈ applyMatches (applyMatches pre ms1 hList ts) ms2 lList ts,
      ∃ u ∈ pre, u.id = t.id := by
    intro t ht
    have : t.id ∈ pre.map fun t => t.id := hA ▸ List.mem_map_of_mem _ ht
    rcases List.mem_map.mp this with ⟨u, hu, heq⟩
    exact ⟨u, hu, heq⟩
  have hSmem : ∀ t ∈ (spawnTracks th ts seeds ([], c)).1,
      c ≤ t.id ∧ t.id < (spawnTracks th ts seeds ([], c)).2 := by
    intro t ht
    rcases hs2 t ht with hmem | h
    · exact absurd hmem (List.not_mem_nil t)
    · exact h
  refine ⟨?_, ?_, hs1, ?_⟩
  · intro t ht
    rcases List.mem_append.mp (List.mem_of_mem_filter ht) with hl | hr
    · rcases hAmem t hl with ⟨u, hu, heq⟩
      exact lt_of_lt_of_le (heq ▸ hub u hu) hs1
    · exact (hSmem t hr).2
  · refine List.Sublist.nodup (List.Sublist.map _ (List.filter_sublist _)) ?_
    rw [List.map_append, List.nodup_append, hA]
    refine ⟨hnd, hsnd, ?_⟩
    intro a ha hb
    rcases List.mem_map.mp ha with ⟨u, hu, heq⟩
    rcases List.mem_map.mp hb with ⟨v, hv, heqv⟩
    have h1 : a < c := heq ▸ hub u hu
    have h2 : c ≤ a := heqv ▸ (hSmem v hv).1
    omega
  · intro t ht hfresh
    rcases List.mem_append.mp (List.mem_of_mem_filter ht) with hl | hr
    · rcases hAmem t hl with ⟨u, hu, heq⟩
      exact absurd heq.symm (hfresh u hu)
    · exact (hSmem t hr).1

/-- C6 (confirmed).  In one tracking session (no `reset`): if every active
track's identity is below the session counter and the active identities are
pairwise distinct, then after any `update` call this still holds, the
counter never decreases, and every surviving track whose identity no
pre-existing track had (i.e. every newly created track) got an identity at
least the old counter — hence strictly greater than every identity assigned
earlier, never reusing an evicted identity.  `__init__` and `reset` restart
the counter at zero with no tracks. -/
theorem c6_identities_strictly_increasing (bt : ByteTracker)
    (dets : List BoundingBox) (ts : ℚ)
    (hub : ∀ t ∈ bt.tracked_stracks, t.id < bt.count)
    (hnd : ((bt.tracked_stracks.map fun t => t.id).Nodup)) :
    (∀ t ∈ (bt.update dets ts).1.tracked_stracks,
      t.id < (bt.update dets ts).1.count) ∧
    (((bt.update dets ts).1.tracked_stracks.map fun t => t.id).Nodup) ∧
    bt.count ≤ (bt.update dets ts).1.count ∧
    (∀ t ∈ (bt.update dets ts).1.tracked_stracks,
      (∀ u ∈ bt.tracked_stracks, t.id ≠ u.id) → bt.count ≤ t.id) ∧
    (∀ tt mt : ℚ, ∀ tb fr : ℕ,
      (ByteTracker.initWith tt tb mt fr).count = 0 ∧
      (ByteTracker.initWith tt tb mt fr).tracked_stracks = []) ∧
    (∀ b : ByteTracker, b.reset.count = 0 ∧ b.reset.tracked_stracks = []) := by
  set high := dets.filter (fun d => decide (bt.track_thresh ≤ d.confidence)) with hhigh
  set low := dets.filter (fun d => decide (d.confidence < bt.track_thresh)) with hlow
  set pre := bt.tracked_stracks.map (fun t => (t.predict ts).2) with hpre
  set r1 := associate high pre bt.match_thresh with hr1def
  set msLow := (if 0 < low.length ∧ 0 < r1.2.2.length then
      (associate low (r1.2.2.map fun i => pre.getD i dummyTracker) (1 / 2)).1
    else []) with hml
  set ms2 := msLow.map (fun m => ((m.1 : ℕ), r1.2.2.getD m.2 0)) with hms2
  set seeds := r1.2.1.map (fun i => high.getD i dummyBox) with hseeds
  have hub' : ∀ t ∈ pre, t.id < bt.count := by
    intro t ht
    rcases List.mem_map.mp ht with ⟨u, hu, rfl⟩
    rw [predict_id]
    exact hub u hu
  have hnd' : ((pre.map fun t => t.id).Nodup) := by
    have hcomp : ((fun t : KalmanBoxTracker => t.id) ∘ fun t => (t.predict ts).2) =
        fun t : KalmanBoxTracker => t.id := funext fun t => predict_id t ts
    rw [hpre, List.map_map, hcomp]
    exact hnd
  have key := frame_ids_spec pre r1.1 ms2 high low seeds bt.track_thresh ts
    bt.track_buffer bt.count hub' hnd'
  have e1 : (bt.update dets ts).1.tracked_stracks =
      (applyMatches (applyMatches pre r1.1 high ts) ms2 low ts ++
        (spawnTracks bt.track_thresh ts seeds ([], bt.count)).1).filter
        (fun t => decide (t.time_since_update ≤ bt.track_buffer)) := rfl
  have e2 : (bt.update dets ts).1.count =
      (spawnTracks bt.track_thresh ts seeds ([], bt.count)).2 := rfl
  rw [e1, e2]
  refine ⟨key.1, key.2.1, key.2.2.1, ?_, fun _ _ _ _ => ⟨rfl, rfl⟩,
    fun _ => ⟨rfl, rfl⟩⟩
  intro t ht hfresh
  refine key.2.2.2 t ht ?_
  intro u hu
  rcases List.mem_map.mp hu with ⟨u0, hu0, rfl⟩
  rw [predict_id]
  exact hfresh u0 hu0

/-- Witness for C6 at a concrete input. -/
theorem c6_identity_witness :
    ((∀ t ∈ ByteTracker.initDefault.tracked_stracks,
      t.id < ByteTracker.initDefault.count) ∧
      ((ByteTracker.initDefault.tracked_stracks.map fun t => t.id).Nodup)) ∧
    ((∀ t ∈ (ByteTracker.initDefault.update [] 0).1.tracked_stracks,
      t.id < (ByteTracker.initDefault.update [] 0).1.count) ∧
      (((ByteTracker.initDefault.update [] 0).1.tracked_stracks.map
        fun t => t.id).Nodup) ∧
      ByteTracker.initDefault.count ≤ (ByteTracker.initDefault.update [] 0).1.count ∧
      (∀ t ∈ (ByteTracker.initDefault.update [] 0).1.tracked_stracks,
        (∀ u ∈ ByteTracker.initDefault.tracked_stracks, t.id ≠ u.id) →
          ByteTracker.initDefault.count ≤ t.id) ∧
      (∀ tt mt : ℚ, ∀ tb fr : ℕ,
        (ByteTracker.initWith tt tb mt fr).count = 0 ∧
        (ByteTracker.initWith tt tb mt fr).tracked_stracks = []) ∧
      (∀ b : ByteTracker, b.reset.count = 0 ∧ b.reset.tracked_stracks = [])) :=
  ⟨⟨fun t ht => absurd ht (List.not_mem_nil t), List.nodup_nil⟩,
    c6_identities_strictly_increasing ByteTracker.initDefault [] 0
      (fun t ht => absurd ht (List.not_mem_nil t)) List.nodup_nil⟩

/-- C8 (confirmed).  The sequence of progress values a job's status receives
is monotonically non-decreasing, every value lies in `[0, 1]`, any truncated
(failed) run writes a monotone prefix of it, and the FAILED transition
itself does not touch `progress` (it freezes at the last reported value)
while setting the stage to FAILED. -/
theorem c8_progress_monotone_bounded (n k : ℕ) (s : ProcessingStatus)
    (e : String) :
    List.Chain' (· ≤ ·) (progressWrites n) ∧
    (∀ x ∈ progressWrites n, 0 ≤ x ∧ x ≤ 1) ∧
    List.Chain' (· ≤ ·) ((progressWrites n).take k) ∧
    (failJob s e).progress = s.progress ∧
    (failJob s e).stage = ProcessingStage.failed := by
  have hchain : List.Chain' (· ≤ ·) (progressWrites n) := by
    rw [progressWrites, List.chain'_map]
    exact (List.chain'_range_succ _ (n + 3)).mpr fun m _ => progressValue_mono n m
  refine ⟨hchain, ?_, hchain.prefix (List.take_prefix k _), rfl, rfl⟩
  intro x hx
  rw [progressWrites] at hx
  rcases List.mem_map.mp hx with ⟨i, _, rfl⟩
  exact progressValue_bounds n i

/-- Counterexample to C7 as stated: the path `/app/uploadsx/clip.mp4` does
not resolve under the allow-list directory `/app/uploads` (and has no
traversal segment), so the claim requires it to be rejected — but the
validation is a string-prefix test, `"/app/uploads"` is a prefix of the
resolved string, and the path passes validation and reaches the file
system. -/
theorem c7_counterexample :
    specRejectsPath ["/app/uploads"] "/" "/app/uploadsx/clip.mp4" ∧
    validatePath ["/app/uploads"] "/" "/app/uploadsx/clip.mp4" = none ∧
    (loadVideoRun ["/app/uploads"] "/" (fun _ => true) (fun _ => true)
      (fun _ => 1) 100 "/app/uploadsx/clip.mp4").1 =
      [FileAccess.statCheck "/app/uploadsx/clip.mp4",
        FileAccess.openFile "/app/uploadsx/clip.mp4"] := by
  refine ⟨?_, by decide, by decide⟩
  right
  decide

/-- C7 (corrected).  The validation runs before any file access and fails
closed, and the concrete traversal scenario is rejected; but "resolves
under the allow-list" is implemented as a *string prefix* test on the
resolved path, so rejection is guaranteed only for paths whose resolved
string extends no allow-list entry — a path under a directory whose name
merely extends an allowed directory's name is accepted. -/
theorem c7_validation_rejects_before_open (allowed : List String)
    (cwd path : String) (fsE opO : String → Bool) (durOf : String → ℚ)
    (maxD : ℚ) :
    (∀ e, validatePath allowed cwd path = some e →
      loadVideoRun allowed cwd fsE opO durOf maxD path = ([], some e)) ∧
    (infixOf ['.', '.'] (resolvePath cwd path) = true →
      validatePath allowed cwd path = some LoadError.invalidPath) ∧
    ((allowed.any fun d => d.data.isPrefixOf (resolvePath cwd path)) = false →
      validatePath allowed cwd path ≠ none) ∧
    (validatePath ["/app/uploads"] "/app/uploads" "../../etc/passwd" =
      some LoadError.notAllowed ∧
    (loadVideoRun ["/app/uploads"] "/app/uploads" fsE opO durOf maxD
      "../../etc/passwd").1 = []) := by
  refine ⟨?_, ?_, ?_, by decide, ?_⟩
  · intro e he
    simp [loadVideoRun, he]
  · intro h
    simp [validatePath, h]
  · intro h
    simp only [validatePath, h]
    split <;> simp
  · have he : validatePath ["/app/uploads"] "/app/uploads" "../../etc/passwd" =
        some LoadError.notAllowed := by decide
    simp [loadVideoRun, he]

/-- Witness for C9 at a concrete input. -/
theorem c9_iou_witness :
    ((0 : ℚ) ≤ 1/5 ∧ (0 : ℚ) ≤ 1/4 ∧ (0 : ℚ) ≤ 1/3 ∧ (0 : ℚ) ≤ 1/2) ∧
    (computeIoU ⟨1/2, 1/2, 1/5, 1/4, 9/10⟩ ⟨1/4, 1/4, 1/3, 1/2, 1/2⟩ =
      computeIoU ⟨1/4, 1/4, 1/3, 1/2, 1/2⟩ ⟨1/2, 1/2, 1/5, 1/4, 9/10⟩ ∧
    (0 ≤ computeIoU ⟨1/2, 1/2, 1/5, 1/4, 9/10⟩ ⟨1/4, 1/4, 1/3, 1/2, 1/2⟩ ∧
      computeIoU ⟨1/2, 1/2, 1/5, 1/4, 9/10⟩ ⟨1/4, 1/4, 1/3, 1/2, 1/2⟩ ≤ 1) ∧
    (0 < (⟨1/2, 1/2, 1/5, 1/4, 9/10⟩ : BoundingBox).width →
      0 < (⟨1/2, 1/2, 1/5, 1/4, 9/10⟩ : BoundingBox).height →
      computeIoU ⟨1/2, 1/2, 1/5, 1/4, 9/10⟩ ⟨1/2, 1/2, 1/5, 1/4, 9/10⟩ = 1) ∧
    (((⟨1/2, 1/2, 1/5, 1/4, 9/10⟩ : BoundingBox).x +
        (⟨1/2, 1/2, 1/5, 1/4, 9/10⟩ : BoundingBox).width / 2 ≤
        (⟨1/4, 1/4, 1/3, 1/2, 1/2⟩ : BoundingBox).x -
        (⟨1/4, 1/4, 1/3, 1/2, 1/2⟩ : BoundingBox).width / 2 ∨
      (⟨1/4, 1/4, 1/3, 1/2, 1/2⟩ : BoundingBox).x +
        (⟨1/4, 1/4, 1/3, 1/2, 1/2⟩ : BoundingBox).width / 2 ≤
        (⟨1/2, 1/2, 1/5, 1/4, 9/10⟩ : BoundingBox).x -
        (⟨1/2, 1/2, 1/5, 1/4, 9/10⟩ : BoundingBox).width / 2 ∨
      (⟨1/2, 1/2, 1/5, 1/4, 9/10⟩ : BoundingBox).y +
        (⟨1/2, 1/2, 1/5, 1/4, 9/10⟩ : BoundingBox).height / 2 ≤
        (⟨1/4, 1/4, 1/3, 1/2, 1/2⟩ : BoundingBox).y -
        (⟨1/4, 1/4, 1/3, 1/2, 1/2⟩ : BoundingBox).height / 2 ∨
      (⟨1/4, 1/4, 1/3, 1/2, 1/2⟩ : BoundingBox).y +
        (⟨1/4, 1/4, 1/3, 1/2, 1/2⟩ : BoundingBox).height / 2 ≤
        (⟨1/2, 1/2, 1/5, 1/4, 9/10⟩ : BoundingBox).y -
        (⟨1/2, 1/2, 1/5, 1/4, 9/10⟩ : BoundingBox).height / 2) →
      computeIoU ⟨1/2, 1/2, 1/5, 1/4, 9/10⟩ ⟨1/4, 1/4, 1/3, 1/2, 1/2⟩ = 0)) :=
  ⟨by norm_num,
    c9_iou_properties ⟨1/2, 1/2, 1/5, 1/4, 9/10⟩ ⟨1/4, 1/4, 1/3, 1/2, 1/2⟩
      (by norm_num) (by norm_num) (by norm_num) (by norm_num)⟩

end Klutch
